import Mathlib

/-!
Shallow embedding of `lib/ansible/modules/cloud/amazon/ec2_lt.py`.

The module drives AWS EC2 launch templates through a boto3 client.  Every
provider interaction goes through one of six thin wrapper functions
(`create_lt`, `create_lt_version`, `describe_lt`, `describe_lt_version`,
`delete_lt`, `delete_lt_version`) and the two top-level flows
`create_launch_template_or_version` (state=present, the Converger) and
`delete_launch_template_or_version` (state=absent, the Remover).

The provider is modelled as an abstract connection: a state type `σ` and a
step function that, for each issued API call, returns the next provider
state together with an outcome (a successful response, a ClientError with a
structured error payload, or a BotoCoreError with a structured payload).
Each embedded module function threads the provider state, records the list
of API calls it issued, and ends either normally, with a terminal
`module.fail_json` (message plus optional structured detail), or with an
uncaught Python exception (modelled as `Out.crash`, e.g. subscripting an
empty response list).  The `AWSRetry.backoff` decorator only retries
throttling errors inside the SDK wrapper; a step outcome here stands for
the post-retry result of the call, so the decorator needs no separate
model.
-/

namespace EC2LT

/-- The `LaunchTemplateData` dict assembled at lines 492-506 of the source.
A field holds `some v` exactly when the corresponding key was added to the
dict (the source adds a key only when the module parameter is truthy).
`CreditSpecification` stores the `CpuCredits` value of the nested
one-key dict built at line 506. -/
structure LTData where
  ImageId : Option String := none
  InstanceType : Option String := none
  KeyName : Option String := none
  SecurityGroupIds : Option (List String) := none
  SecurityGroups : Option (List String) := none
  CreditSpecification : Option String := none
deriving DecidableEq, Repr

/-- Python truthiness of the `LaunchTemplateData` dict: an empty dict is
falsy. -/
def LTData.isEmptyDict (d : LTData) : Bool :=
  d.ImageId.isNone && d.InstanceType.isNone && d.KeyName.isNone &&
  d.SecurityGroupIds.isNone && d.SecurityGroups.isNone &&
  d.CreditSpecification.isNone

/-- Python truthiness of the LaunchTemplateData entry of the
launch_template dict, as used in the guard at line 519: `if data:` is true
exactly when the dict is non-empty. -/
def pyDictTruthy (d : LTData) : Bool := !d.isEmptyDict

/-- Python `is not None` applied to the LaunchTemplateData entry of the
launch_template dict (lines 512 and 519).  The value is initialised to
`dict()` at line 492 and only ever updated with key assignments, so it is
always a dict and never `None`; `is not None` on a dict value is `True`. -/
def pyDictIsNotNone (_ : LTData) : Bool := true

/-- Python truthiness of an optional string parameter (`if ami_id:` etc.):
`None` and the empty string are falsy. -/
def optStrTruthy : Option String → Bool
  | none => false
  | some s => !(s == "")

/-- Python truthiness of an optional list parameter: `None` and the empty
list are falsy. -/
def optListTruthy : Option (List String) → Bool
  | none => false
  | some l => !l.isEmpty

/-- The keyword arguments forwarded with `**launch_template` to
`create_launch_template` and `create_launch_template_version` in the
Converger: the dict built at lines 491-506. -/
structure LaunchTemplateReq where
  LaunchTemplateName : String
  VersionDescription : Option String := none
  LaunchTemplateData : LTData := {}
deriving DecidableEq, Repr

/-- The `launch_template` dict as consumed by the describe/delete helpers:
only the keys `LaunchTemplateName`, `LaunchTemplateId` and `Version` are
read there.  In the Converger the dict carries no `LaunchTemplateId` or
`Version` key; since its `LaunchTemplateName` is always a string, the
branches that would read the missing keys are never evaluated, so a
missing key is modelled as `none`. -/
structure LTRef where
  LaunchTemplateName : Option String := none
  LaunchTemplateId : Option String := none
  Version : Option String := none
deriving DecidableEq, Repr

/-- The fields of a `DescribeLaunchTemplates` response entry that the
module reads. -/
structure LTRecord where
  LaunchTemplateId : String
  LaunchTemplateName : String
  CreateTime : String
  DefaultVersionNumber : Nat
  LatestVersionNumber : Nat
deriving DecidableEq, Repr

/-- The fields of a `DescribeLaunchTemplateVersions` response entry that
the module reads. -/
structure LTVRecord where
  LaunchTemplateData : LTData
  CreateTime : String
deriving DecidableEq, Repr

/-- A structured provider error payload (`e.response`), a key/value dict. -/
abbrev ErrResponse : Type := List (String × String)

/-- Modelled from the spec: the external helper
`ansible.module_utils.ec2.camel_dict_to_snake_dict` (not part of this
repository) translates the provider error payload to a uniform snake_case
key-naming convention.  Keys are rewritten character-wise: an upper-case
letter becomes an underscore followed by its lower-case form, with a
leading underscore dropped. -/
def camelToSnake (s : String) : String :=
  let l := s.data.foldr (fun c acc =>
    (if c.isUpper then ['_', c.toLower] else [c]) ++ acc) []
  String.mk (match l with
    | '_' :: rest => rest
    | other => other)

/-- Modelled from the spec: key-naming translation applied to a structured
error payload before it is attached to a failure report. -/
def camel_dict_to_snake_dict (e : ErrResponse) : ErrResponse :=
  e.map (fun kv => (camelToSnake kv.1, kv.2))

/-- Modelled from the spec: the external helper
`ansible.module_utils._text.to_text` renders a provider value as text;
create-time values are modelled as strings already, so the conversion is
the identity on them. -/
def to_text (s : String) : String := s

/-- The response value of a provider call, as far as the module reads it. -/
inductive Response where
  | rUnit
  | rTemplates (ts : List LTRecord)
  | rVersions (vs : List LTVRecord)
deriving DecidableEq, Repr

/-- Outcome of one provider API call: success, a
`botocore.exceptions.ClientError` (provider rejection) carrying
`e.response`, or a `botocore.exceptions.BotoCoreError` (transport/SDK
failure) carrying its payload. -/
inductive ApiOutcome where
  | ok (r : Response)
  | clientErr (e : ErrResponse)
  | botoErr (e : ErrResponse)
deriving DecidableEq, Repr

/-- The API calls the module can issue, with the arguments it passes. -/
inductive ApiCall where
  | createLaunchTemplate (req : LaunchTemplateReq)
  | createLaunchTemplateVersion (req : LaunchTemplateReq)
  | describeLaunchTemplatesByName (name : String)
  | describeLaunchTemplatesById (id : String)
  | describeLaunchTemplateVersionsByName (name : String) (version : String)
  | describeLaunchTemplateVersionsById (id : String) (version : String)
  | deleteLaunchTemplateByName (name : String)
  | deleteLaunchTemplateById (id : String)
  | deleteLaunchTemplateVersionsByName (name : String) (version : Option String)
  | deleteLaunchTemplateVersionsById (id : String) (version : Option String)
deriving DecidableEq, Repr

/-- Whether a call mutates provider state (the create and delete calls);
the describe calls are read-only. -/
def ApiCall.isMutating : ApiCall → Bool
  | .createLaunchTemplate _ => true
  | .createLaunchTemplateVersion _ => true
  | .deleteLaunchTemplateByName _ => true
  | .deleteLaunchTemplateById _ => true
  | .deleteLaunchTemplateVersionsByName _ _ => true
  | .deleteLaunchTemplateVersionsById _ _ => true
  | _ => false

/-- Whether a call is a whole-template delete. -/
def ApiCall.isDeleteTemplate : ApiCall → Bool
  | .deleteLaunchTemplateByName _ => true
  | .deleteLaunchTemplateById _ => true
  | _ => false

/-- Whether a call is a delete of specific versions. -/
def ApiCall.isDeleteVersions : ApiCall → Bool
  | .deleteLaunchTemplateVersionsByName _ _ => true
  | .deleteLaunchTemplateVersionsById _ _ => true
  | _ => false

/-- Whether a call addresses the resource by id rather than by name. -/
def ApiCall.addressesById : ApiCall → Bool
  | .describeLaunchTemplatesById _ => true
  | .describeLaunchTemplateVersionsById _ _ => true
  | .deleteLaunchTemplateById _ => true
  | .deleteLaunchTemplateVersionsById _ _ => true
  | _ => false

/-- The version list carried by a delete-versions call, when it is one. -/
def ApiCall.deleteVersionsArg : ApiCall → Option (Option String)
  | .deleteLaunchTemplateVersionsByName _ v => some v
  | .deleteLaunchTemplateVersionsById _ v => some v
  | _ => none

/-- How an embedded module function ends: a normal Python return, a
terminal `module.fail_json(msg=..., ...)` with its message and its
optional structured provider detail, or an uncaught Python exception. -/
inductive Out (α : Type) where
  | normal (a : α)
  | fail (msg : String) (detail : Option ErrResponse)
  | crash
deriving DecidableEq, Repr

/-- The failure message of an outcome, when it is a terminal failure. -/
def Out.failMsg? {α : Type} : Out α → Option String
  | .fail m _ => some m
  | _ => none

/-- Whether an outcome is a normal return. -/
def Out.isNormal {α : Type} : Out α → Bool
  | .normal _ => true
  | _ => false

/-- Result of running an embedded module function: the final provider
state, the list of API calls issued (in order), and how it ended. -/
abbrev StepRes (σ α : Type) : Type := σ × List ApiCall × Out α

/-- The provider client: given the current provider state and a call,
yields the next state and the outcome of the call. -/
structure Connection (σ : Type) where
  step : σ → ApiCall → σ × ApiOutcome

/-- Sequencing of embedded computations: a terminal failure or a crash in
the first part short-circuits; otherwise the second part runs on the
updated provider state and the call logs are concatenated. -/
def seqE {σ α β : Type} (x : StepRes σ α) (f : α → σ → StepRes σ β) : StepRes σ β :=
  match x with
  | (s, g, Out.normal a) =>
      match f a s with
      | (s', g', r) => (s', g ++ g', r)
  | (s, g, Out.fail m d) => (s, g, Out.fail m d)
  | (s, g, Out.crash) => (s, g, Out.crash)

/-- `create_lt` (lines 393-399): issues `create_launch_template(**params)`;
both error kinds become a terminal failure carrying the snake-cased
structured payload. -/
def create_lt {σ : Type} (conn : Connection σ) (params : LaunchTemplateReq) (s : σ) :
    StepRes σ Unit :=
  match conn.step s (ApiCall.createLaunchTemplate params) with
  | (s', ApiOutcome.ok _) =>
      (s', [ApiCall.createLaunchTemplate params], Out.normal ())
  | (s', ApiOutcome.clientErr e) =>
      (s', [ApiCall.createLaunchTemplate params],
       Out.fail "Failed to create launch template" (some (camel_dict_to_snake_dict e)))
  | (s', ApiOutcome.botoErr e) =>
      (s', [ApiCall.createLaunchTemplate params],
       Out.fail "Failed to create launch template" (some (camel_dict_to_snake_dict e)))

/-- `create_lt_version` (lines 402-408): issues
`create_launch_template_version(**params)` with the same error handling. -/
def create_lt_version {σ : Type} (conn : Connection σ) (params : LaunchTemplateReq) (s : σ) :
    StepRes σ Unit :=
  match conn.step s (ApiCall.createLaunchTemplateVersion params) with
  | (s', ApiOutcome.ok _) =>
      (s', [ApiCall.createLaunchTemplateVersion params], Out.normal ())
  | (s', ApiOutcome.clientErr e) =>
      (s', [ApiCall.createLaunchTemplateVersion params],
       Out.fail "Failed to create launch template version" (some (camel_dict_to_snake_dict e)))
  | (s', ApiOutcome.botoErr e) =>
      (s', [ApiCall.createLaunchTemplateVersion params],
       Out.fail "Failed to create launch template version" (some (camel_dict_to_snake_dict e)))

/-- Shared body of the two `describe_lt` branches: issue the describe call
and take element `[0]` of the `LaunchTemplates` list (subscripting an
empty list is an uncaught IndexError, i.e. a crash).  A `ClientError` is
swallowed by the `except` clause at line 421 and becomes `return None`;
a `BotoCoreError` is a terminal failure. -/
def describe_lt_call {σ : Type} (conn : Connection σ) (c : ApiCall) (s : σ) :
    StepRes σ (Option LTRecord) :=
  match conn.step s c with
  | (s', ApiOutcome.ok (Response.rTemplates (t :: _))) => (s', [c], Out.normal (some t))
  | (s', ApiOutcome.ok (Response.rTemplates [])) => (s', [c], Out.crash)
  | (s', ApiOutcome.ok _) => (s', [c], Out.crash)
  | (s', ApiOutcome.clientErr _) => (s', [c], Out.normal none)
  | (s', ApiOutcome.botoErr e) =>
      (s', [c], Out.fail "Failed to describe the launch template" (some (camel_dict_to_snake_dict e)))

/-- `describe_lt` (lines 411-424): look up by name when the name key is a
string, otherwise by id when the id key is a string; with neither, the
function falls through both branches and returns `None`. -/
def describe_lt {σ : Type} (conn : Connection σ) (launch_template : LTRef) (s : σ) :
    StepRes σ (Option LTRecord) :=
  match launch_template.LaunchTemplateName with
  | some n => describe_lt_call conn (ApiCall.describeLaunchTemplatesByName n) s
  | none =>
      match launch_template.LaunchTemplateId with
      | some i => describe_lt_call conn (ApiCall.describeLaunchTemplatesById i) s
      | none => (s, [], Out.normal none)

/-- Shared body of the two `describe_lt_version` branches: issue the call
with `Versions=[str(version_number)]` and take element `[0]` of the
response list.  Both error kinds become a terminal failure whose message
interpolates the version number and which carries no structured detail
(line 441 passes only `msg`). -/
def describe_lt_version_call {σ : Type} (conn : Connection σ) (c : ApiCall)
    (version_number : String) (s : σ) : StepRes σ LTVRecord :=
  match conn.step s c with
  | (s', ApiOutcome.ok (Response.rVersions (v :: _))) => (s', [c], Out.normal v)
  | (s', ApiOutcome.ok (Response.rVersions [])) => (s', [c], Out.crash)
  | (s', ApiOutcome.ok _) => (s', [c], Out.crash)
  | (s', ApiOutcome.clientErr _) =>
      (s', [c], Out.fail ("Failed to describe launch template version number: " ++ version_number) none)
  | (s', ApiOutcome.botoErr _) =>
      (s', [c], Out.fail ("Failed to describe launch template version number: " ++ version_number) none)

/-- `describe_lt_version` (lines 427-441): by name, else by id, else the
terminal usage failure `Missing launch template name or id`.  The
`version_number` argument is already rendered as a string by the callers
(the Converger passes `str` of the latest version number, the Remover
passes the `version` module parameter, itself a string). -/
def describe_lt_version {σ : Type} (conn : Connection σ) (launch_template : LTRef)
    (version_number : String) (s : σ) : StepRes σ LTVRecord :=
  match launch_template.LaunchTemplateName with
  | some n =>
      describe_lt_version_call conn
        (ApiCall.describeLaunchTemplateVersionsByName n version_number) version_number s
  | none =>
      match launch_template.LaunchTemplateId with
      | some i =>
          describe_lt_version_call conn
            (ApiCall.describeLaunchTemplateVersionsById i version_number) version_number s
      | none => (s, [], Out.fail "Missing launch template name or id" none)

/-- Shared body of the two `delete_lt` branches. -/
def delete_lt_call {σ : Type} (conn : Connection σ) (c : ApiCall) (s : σ) :
    StepRes σ Response :=
  match conn.step s c with
  | (s', ApiOutcome.ok r) => (s', [c], Out.normal r)
  | (s', ApiOutcome.clientErr e) =>
      (s', [c], Out.fail "Failed to delete the launch template" (some (camel_dict_to_snake_dict e)))
  | (s', ApiOutcome.botoErr e) =>
      (s', [c], Out.fail "Failed to delete the launch template" (some (camel_dict_to_snake_dict e)))

/-- `delete_lt` (lines 444-457): delete the whole template by name, else by
id, else the terminal usage failure `Missing launch template name or id`. -/
def delete_lt {σ : Type} (conn : Connection σ) (launch_template : LTRef) (s : σ) :
    StepRes σ Response :=
  match launch_template.LaunchTemplateName with
  | some n => delete_lt_call conn (ApiCall.deleteLaunchTemplateByName n) s
  | none =>
      match launch_template.LaunchTemplateId with
      | some i => delete_lt_call conn (ApiCall.deleteLaunchTemplateById i) s
      | none => (s, [], Out.fail "Missing launch template name or id" none)

/-- Shared body of the two `delete_lt_version` branches; the call carries
the Version entry of the launch_template dict as its Versions list. -/
def delete_lt_version_call {σ : Type} (conn : Connection σ) (c : ApiCall) (s : σ) :
    StepRes σ Response :=
  match conn.step s c with
  | (s', ApiOutcome.ok r) => (s', [c], Out.normal r)
  | (s', ApiOutcome.clientErr e) =>
      (s', [c], Out.fail "Failed to delete the launch template version" (some (camel_dict_to_snake_dict e)))
  | (s', ApiOutcome.botoErr e) =>
      (s', [c], Out.fail "Failed to delete the launch template version" (some (camel_dict_to_snake_dict e)))

/-- `delete_lt_version` (lines 460-473): delete one version by name, else
by id, else the terminal usage failure `Missing launch template name or
id`. -/
def delete_lt_version {σ : Type} (conn : Connection σ) (launch_template : LTRef) (s : σ) :
    StepRes σ Response :=
  match launch_template.LaunchTemplateName with
  | some n =>
      delete_lt_version_call conn
        (ApiCall.deleteLaunchTemplateVersionsByName n launch_template.Version) s
  | none =>
      match launch_template.LaunchTemplateId with
      | some i =>
          delete_lt_version_call conn
            (ApiCall.deleteLaunchTemplateVersionsById i launch_template.Version) s
      | none => (s, [], Out.fail "Missing launch template name or id" none)

/-- The module parameters read by the Converger (`state=present`); `name`
is declared `required=True` in the argument spec, the rest default to
`None`. -/
structure PresentParams where
  name : String
  version_description : Option String := none
  ami_id : Option String := none
  instance_type : Option String := none
  key_name : Option String := none
  security_group_ids : Option (List String) := none
  security_groups : Option (List String) := none
  cpu_credits : Option String := none
deriving DecidableEq, Repr

/-- Lines 491-506: assemble the `launch_template` dict for the create
calls.  Each key is added only when the corresponding parameter is truthy. -/
def buildLaunchTemplate (p : PresentParams) : LaunchTemplateReq :=
  { LaunchTemplateName := p.name
    VersionDescription := if optStrTruthy p.version_description then p.version_description else none
    LaunchTemplateData :=
      { ImageId := if optStrTruthy p.ami_id then p.ami_id else none
        InstanceType := if optStrTruthy p.instance_type then p.instance_type else none
        KeyName := if optStrTruthy p.key_name then p.key_name else none
        SecurityGroupIds := if optListTruthy p.security_group_ids then p.security_group_ids else none
        SecurityGroups := if optListTruthy p.security_groups then p.security_groups else none
        CreditSpecification := if optStrTruthy p.cpu_credits then p.cpu_credits else none } }

/-- The `launch_template` dict as seen by the describe helpers in the
Converger: only the name key is present (`name` is a required string
parameter). -/
def ltRefOf (p : PresentParams) : LTRef := { LaunchTemplateName := some p.name }

/-- The `latest_version` sub-dict of the present-state result payload
(lines 536-539). -/
structure LatestVersionOut where
  launch_template_data : LTData
  create_time : String
deriving DecidableEq, Repr

/-- The present-state result payload (lines 531-539): exactly these six
keys are set. -/
structure PresentResults where
  id : String
  name : String
  create_time : String
  default_version_number : Nat
  latest_version_number : Nat
  latest_version : LatestVersionOut
deriving DecidableEq, Repr

/-- The `results` value returned to the host: the empty dict (as
initialised at lines 480 and 548) or the present-state payload. -/
inductive ResultsPayload where
  | empty
  | present (r : PresentResults)
deriving DecidableEq, Repr

/-- What the module hands to `module.exit_json`: the changed flag and the
results payload. -/
structure ModuleResults where
  changed : Bool
  results : ResultsPayload
deriving DecidableEq, Repr

/-- The changed flag of a normal outcome, when there is one. -/
def Out.changedOf? : Out ModuleResults → Option Bool
  | .normal r => some r.changed
  | _ => none

/-- Lines 511-526 of the Converger: decide between creating a new template
(lookup found nothing) and creating a new version (lookup found one and
the latest version data differs from the request); yields the changed
flag. -/
def converger_branch {σ : Type} (conn : Connection σ) (launch_template : LaunchTemplateReq)
    (r : LTRef) (lt0 : Option LTRecord) (s : σ) : StepRes σ Bool :=
  match lt0 with
  | none =>
      if pyDictIsNotNone launch_template.LaunchTemplateData then
        seqE (create_lt conn launch_template s) (fun _ s1 =>
          seqE (describe_lt conn r s1) (fun _ s2 =>
            (s2, [], Out.normal true)))
      else
        (s, [], Out.fail "Launch template data missing." none)
  | some lt =>
      if pyDictTruthy launch_template.LaunchTemplateData &&
         pyDictIsNotNone launch_template.LaunchTemplateData then
        seqE (describe_lt_version conn r (toString lt.LatestVersionNumber) s)
          (fun lt_latest_version s1 =>
            if lt_latest_version.LaunchTemplateData ≠ launch_template.LaunchTemplateData then
              seqE (create_lt_version conn launch_template s1) (fun _ s2 =>
                seqE (describe_lt conn r s2) (fun _ s3 =>
                  (s3, [], Out.normal true)))
            else
              (s1, [], Out.normal false))
      else
        (s, [], Out.normal false)

/-- Lines 528-541 of the Converger: re-fetch the template and its latest
version and assemble the result payload.  When the re-fetch returns
`None`, line 529 subscripts `None` and the module crashes. -/
def converger_final {σ : Type} (conn : Connection σ) (r : LTRef) (changed : Bool) (s : σ) :
    StepRes σ ModuleResults :=
  seqE (describe_lt conn r s) (fun ltOpt s1 =>
    match ltOpt with
    | none => (s1, [], Out.crash)
    | some lt =>
        seqE (describe_lt_version conn r (toString lt.LatestVersionNumber) s1)
          (fun ltv s2 =>
            (s2, [],
             Out.normal
               { changed := changed
                 results := ResultsPayload.present
                   { id := lt.LaunchTemplateId
                     name := lt.LaunchTemplateName
                     create_time := to_text lt.CreateTime
                     default_version_number := lt.DefaultVersionNumber
                     latest_version_number := lt.LatestVersionNumber
                     latest_version :=
                       { launch_template_data := ltv.LaunchTemplateData
                         create_time := to_text ltv.CreateTime } } })))

/-- `create_launch_template_or_version` (lines 476-541), the Converger. -/
def create_launch_template_or_version {σ : Type} (conn : Connection σ) (p : PresentParams)
    (s : σ) : StepRes σ ModuleResults :=
  let launch_template := buildLaunchTemplate p
  let r := ltRefOf p
  seqE (describe_lt conn r s) (fun lt0 s1 =>
    seqE (converger_branch conn launch_template r lt0 s1) (fun changed s2 =>
      converger_final conn r changed s2))

/-- `delete_launch_template_or_version` (lines 544-563), the Remover: with
a version parameter, describe that version (result unused) and delete it;
otherwise delete the whole template.  Both successful paths report
`changed=True` and an empty results dict. -/
def delete_launch_template_or_version {σ : Type} (conn : Connection σ)
    (name id version : Option String) (s : σ) : StepRes σ ModuleResults :=
  let launch_template : LTRef :=
    { LaunchTemplateName := name, LaunchTemplateId := id, Version := version }
  match version with
  | some v =>
      seqE (describe_lt_version conn launch_template v s) (fun _ s1 =>
        seqE (delete_lt_version conn launch_template s1) (fun _ s2 =>
          (s2, [], Out.normal { changed := true, results := ResultsPayload.empty })))
  | none =>
      seqE (delete_lt conn launch_template s) (fun _ s1 =>
        (s1, [], Out.normal { changed := true, results := ResultsPayload.empty }))

/-- Modelled from the spec: the Remover variant contemplated in the design
notes, identical to `delete_launch_template_or_version` except that the
preliminary describe call of the version to delete is removed. -/
def delete_remover_no_describe {σ : Type} (conn : Connection σ)
    (name id version : Option String) (s : σ) : StepRes σ ModuleResults :=
  let launch_template : LTRef :=
    { LaunchTemplateName := name, LaunchTemplateId := id, Version := version }
  match version with
  | some _ =>
      seqE (delete_lt_version conn launch_template s) (fun _ s1 =>
        (s1, [], Out.normal { changed := true, results := ResultsPayload.empty }))
  | none =>
      seqE (delete_lt conn launch_template s) (fun _ s1 =>
        (s1, [], Out.normal { changed := true, results := ResultsPayload.empty }))

/-!
A faithful provider-state model: a deterministic cloud holding the live
launch templates, against which the success paths and the idempotence
behaviour can be evaluated.  It implements the collaborator contract the
spec describes: templates are unique per name, versions are append-only
and numbered from 1, a describe of a missing resource is a provider
rejection (`ClientError`), and describe calls leave the state unchanged.
-/

/-- One immutable version snapshot held by the provider. -/
structure CloudVersion where
  number : Nat
  data : LTData
  createTime : String
deriving DecidableEq, Repr

/-- One live launch template held by the provider. -/
structure CloudLT where
  ltId : String
  ltName : String
  createTime : String
  defaultVersionNumber : Nat
  latestVersionNumber : Nat
  versions : List CloudVersion
deriving DecidableEq, Repr

/-- Provider state: the live templates and a counter used to mint fresh
identifiers and timestamps. -/
structure Cloud where
  templates : List CloudLT
  nextId : Nat
deriving DecidableEq, Repr

/-- Lookup of a template by name. -/
def findTemplate (ts : List CloudLT) (n : String) : Option CloudLT :=
  ts.find? (fun t => t.ltName == n)

/-- Lookup of a template by id. -/
def findTemplateById (ts : List CloudLT) (i : String) : Option CloudLT :=
  ts.find? (fun t => t.ltId == i)

/-- Lookup of a version by its rendered version number. -/
def findVersion (t : CloudLT) (v : String) : Option CloudVersion :=
  t.versions.find? (fun vr => toString vr.number == v)

/-- Replace the template of the given name. -/
def replaceTemplate (ts : List CloudLT) (n : String) (t' : CloudLT) : List CloudLT :=
  ts.map (fun u => if u.ltName == n then t' else u)

/-- The describe-templates response entry for a live template. -/
def recordOf (t : CloudLT) : LTRecord :=
  { LaunchTemplateId := t.ltId
    LaunchTemplateName := t.ltName
    CreateTime := t.createTime
    DefaultVersionNumber := t.defaultVersionNumber
    LatestVersionNumber := t.latestVersionNumber }

/-- The describe-template-versions response entry for a stored version. -/
def versionRecordOf (vr : CloudVersion) : LTVRecord :=
  { LaunchTemplateData := vr.data, CreateTime := vr.createTime }

/-- A provider-rejection payload for a missing resource. -/
def notFoundErr : ErrResponse :=
  [("Code", "InvalidLaunchTemplateName.NotFoundException"), ("Message", "not found")]

/-- A provider-rejection payload for an invalid request. -/
def validationErr : ErrResponse := [("Code", "ValidationError"), ("Message", "invalid")]

/-- The timestamp minted by the next mutating call. -/
def Cloud.mintTime (s : Cloud) : String := "time-" ++ toString s.nextId

/-- The identifier minted by the next create-template call. -/
def Cloud.mintId (s : Cloud) : String := "lt-" ++ toString s.nextId

/-- The template a create-template call adds: version 1 holds exactly the
requested data. -/
def Cloud.newTemplate (s : Cloud) (req : LaunchTemplateReq) : CloudLT :=
  { ltId := s.mintId
    ltName := req.LaunchTemplateName
    createTime := s.mintTime
    defaultVersionNumber := 1
    latestVersionNumber := 1
    versions := [{ number := 1, data := req.LaunchTemplateData, createTime := s.mintTime }] }

/-- Provider state after a successful create-template call. -/
def Cloud.createTemplate (s : Cloud) (req : LaunchTemplateReq) : Cloud :=
  { templates := s.newTemplate req :: s.templates, nextId := s.nextId + 1 }

/-- The updated template after a successful create-template-version call. -/
def CloudLT.withNewVersion (t : CloudLT) (req : LaunchTemplateReq) (time : String) : CloudLT :=
  { t with
    latestVersionNumber := t.latestVersionNumber + 1
    versions :=
      { number := t.latestVersionNumber + 1
        data := req.LaunchTemplateData
        createTime := time } :: t.versions }

/-- Provider state after a successful create-template-version call. -/
def Cloud.createVersion (s : Cloud) (req : LaunchTemplateReq) : Cloud :=
  match findTemplate s.templates req.LaunchTemplateName with
  | none => s
  | some t =>
      { templates :=
          replaceTemplate s.templates req.LaunchTemplateName (t.withNewVersion req s.mintTime)
        nextId := s.nextId + 1 }

/-- The deterministic provider: one step per API call. -/
def Cloud.step (s : Cloud) : ApiCall → Cloud × ApiOutcome
  | ApiCall.createLaunchTemplate req =>
      match findTemplate s.templates req.LaunchTemplateName with
      | some _ => (s, ApiOutcome.clientErr validationErr)
      | none => (s.createTemplate req, ApiOutcome.ok Response.rUnit)
  | ApiCall.createLaunchTemplateVersion req =>
      match findTemplate s.templates req.LaunchTemplateName with
      | none => (s, ApiOutcome.clientErr notFoundErr)
      | some _ => (s.createVersion req, ApiOutcome.ok Response.rUnit)
  | ApiCall.describeLaunchTemplatesByName n =>
      match findTemplate s.templates n with
      | some t => (s, ApiOutcome.ok (Response.rTemplates [recordOf t]))
      | none => (s, ApiOutcome.clientErr notFoundErr)
  | ApiCall.describeLaunchTemplatesById i =>
      match findTemplateById s.templates i with
      | some t => (s, ApiOutcome.ok (Response.rTemplates [recordOf t]))
      | none => (s, ApiOutcome.clientErr notFoundErr)
  | ApiCall.describeLaunchTemplateVersionsByName n v =>
      match findTemplate s.templates n with
      | some t =>
          match findVersion t v with
          | some vr => (s, ApiOutcome.ok (Response.rVersions [versionRecordOf vr]))
          | none => (s, ApiOutcome.clientErr notFoundErr)
      | none => (s, ApiOutcome.clientErr notFoundErr)
  | ApiCall.describeLaunchTemplateVersionsById i v =>
      match findTemplateById s.templates i with
      | some t =>
          match findVersion t v with
          | some vr => (s, ApiOutcome.ok (Response.rVersions [versionRecordOf vr]))
          | none => (s, ApiOutcome.clientErr notFoundErr)
      | none => (s, ApiOutcome.clientErr notFoundErr)
  | ApiCall.deleteLaunchTemplateByName n =>
      match findTemplate s.templates n with
      | some _ =>
          ({ s with templates := s.templates.filter (fun u => !(u.ltName == n)) },
           ApiOutcome.ok Response.rUnit)
      | none => (s, ApiOutcome.clientErr notFoundErr)
  | ApiCall.deleteLaunchTemplateById i =>
      match findTemplateById s.templates i with
      | some t =>
          ({ s with templates := s.templates.filter (fun u => !(u.ltId == t.ltId)) },
           ApiOutcome.ok Response.rUnit)
      | none => (s, ApiOutcome.clientErr notFoundErr)
  | ApiCall.deleteLaunchTemplateVersionsByName n v =>
      match v with
      | none => (s, ApiOutcome.clientErr validationErr)
      | some vs =>
          match findTemplate s.templates n with
          | some t =>
              match findVersion t vs with
              | some _ =>
                  let t' := { t with versions := t.versions.filter (fun vr => !(toString vr.number == vs)) }
                  ({ s with templates := replaceTemplate s.templates n t' },
                   ApiOutcome.ok Response.rUnit)
              | none => (s, ApiOutcome.clientErr notFoundErr)
          | none => (s, ApiOutcome.clientErr notFoundErr)
  | ApiCall.deleteLaunchTemplateVersionsById i v =>
      match v with
      | none => (s, ApiOutcome.clientErr validationErr)
      | some vs =>
          match findTemplateById s.templates i with
          | some t =>
              match findVersion t vs with
              | some _ =>
                  let t' := { t with versions := t.versions.filter (fun vr => !(toString vr.number == vs)) }
                  ({ s with templates := replaceTemplate s.templates t.ltName t' },
                   ApiOutcome.ok Response.rUnit)
              | none => (s, ApiOutcome.clientErr notFoundErr)
          | none => (s, ApiOutcome.clientErr notFoundErr)

/-- The faithful connection backed by the deterministic provider. -/
def cloudConn : Connection Cloud := { step := Cloud.step }

/-- A concrete provider state with one template holding one version, used
to exercise the theorems on concrete inputs. -/
def sampleVersion : CloudVersion :=
  { number := 1, data := { ImageId := some "ami-1" }, createTime := "time-0" }

/-- A concrete live template. -/
def sampleTemplate : CloudLT :=
  { ltId := "lt-0", ltName := "tpl", createTime := "time-0",
    defaultVersionNumber := 1, latestVersionNumber := 1, versions := [sampleVersion] }

/-- A concrete provider state containing `sampleTemplate`. -/
def sampleCloud : Cloud := { templates := [sampleTemplate], nextId := 1 }

/-- A concrete empty provider state. -/
def emptyCloud : Cloud := { templates := [], nextId := 0 }

/-- Number of mutating calls in a call log. -/
def countMutating (g : List ApiCall) : Nat := (g.filter ApiCall.isMutating).length

/-- The present-state payload carried by a results object, when any. -/
def ResultsPayload.present? : ResultsPayload → Option PresentResults
  | ResultsPayload.empty => none
  | ResultsPayload.present r => some r

/-- Whether a call log ends with the canonical re-fetch pair: a describe
of the named template followed by a describe of one of its versions. -/
def endsWithRefetch (g : List ApiCall) (n : String) : Bool :=
  match g.reverse with
  | ApiCall.describeLaunchTemplateVersionsByName nv _ ::
    ApiCall.describeLaunchTemplatesByName nt :: _ => (nv == n) && (nt == n)
  | _ => false

/-- The canonical present-state payload for a named template as currently
held by the provider: the template record together with its latest
version. -/
def canonicalResult (s : Cloud) (n : String) : Option PresentResults :=
  match findTemplate s.templates n with
  | none => none
  | some t =>
      match findVersion t (toString t.latestVersionNumber) with
      | none => none
      | some vr =>
          some
            { id := t.ltId, name := t.ltName, create_time := t.createTime,
              default_version_number := t.defaultVersionNumber,
              latest_version_number := t.latestVersionNumber,
              latest_version :=
                { launch_template_data := vr.data, create_time := vr.createTime } }

/-- A connection that rejects every call with a provider error
(`ClientError`) carrying a structured payload. -/
def alwaysRejectConn : Connection Unit :=
  { step := fun s _ => (s, ApiOutcome.clientErr [("Code", "AccessDenied"), ("Message", "rejected")]) }

/-- A connection on which every call fails with a transport-level error
(`BotoCoreError`). -/
def alwaysBotoConn : Connection Unit :=
  { step := fun s _ => (s, ApiOutcome.botoErr [("Code", "Timeout"), ("Message", "timed out")]) }

/-!
Lemmas.  The first group characterises the call wrappers and the
sequencing combinator; the second group evaluates the Converger and the
Remover over the deterministic provider; the final group settles the
claims.
-/

theorem describe_lt_call_trace {σ : Type} (conn : Connection σ) (c : ApiCall) (s : σ) :
    (describe_lt_call conn c s).2.1 = [c] := by
  unfold describe_lt_call
  rcases h : conn.step s c with ⟨s', o⟩
  rcases o with r | e | e
  · rcases r with _ | ts | vs
    · rfl
    · rcases ts with _ | ⟨t, ts⟩ <;> rfl
    · rfl
  · rfl
  · rfl

theorem describe_lt_version_call_trace {σ : Type} (conn : Connection σ) (c : ApiCall)
    (v : String) (s : σ) : (describe_lt_version_call conn c v s).2.1 = [c] := by
  unfold describe_lt_version_call
  rcases h : conn.step s c with ⟨s', o⟩
  rcases o with r | e | e
  · rcases r with _ | ts | vs
    · rfl
    · rfl
    · rcases vs with _ | ⟨x, vs⟩ <;> rfl
  · rfl
  · rfl

theorem delete_lt_call_trace {σ : Type} (conn : Connection σ) (c : ApiCall) (s : σ) :
    (delete_lt_call conn c s).2.1 = [c] := by
  unfold delete_lt_call
  rcases h : conn.step s c with ⟨s', o⟩
  rcases o with r | e | e <;> rfl

theorem delete_lt_version_call_trace {σ : Type} (conn : Connection σ) (c : ApiCall) (s : σ) :
    (delete_lt_version_call conn c s).2.1 = [c] := by
  unfold delete_lt_version_call
  rcases h : conn.step s c with ⟨s', o⟩
  rcases o with r | e | e <;> rfl

theorem countMutating_append (a b : List ApiCall) :
    countMutating (a ++ b) = countMutating a + countMutating b := by
  simp [countMutating, List.filter_append]

theorem countMutating_seqE_le {σ α β : Type} {x : StepRes σ α} {f : α → σ → StepRes σ β}
    {m n : Nat} (hx : countMutating x.2.1 ≤ m)
    (hf : ∀ a s', countMutating (f a s').2.1 ≤ n) :
    countMutating (seqE x f).2.1 ≤ m + n := by
  rcases x with ⟨s0, g0, o⟩
  rcases o with a | msg | _
  · rcases h : f a s0 with ⟨s', g', r⟩
    have hb := hf a s0
    rw [h] at hb
    simp only [seqE, h, countMutating_append]
    simp only [countMutating] at hx hb ⊢
    omega
  · exact le_trans hx (Nat.le_add_right _ _)
  · exact le_trans hx (Nat.le_add_right _ _)

theorem countMutating_describe_lt {σ : Type} (conn : Connection σ) (r : LTRef) (s : σ) :
    countMutating (describe_lt conn r s).2.1 = 0 := by
  unfold describe_lt
  rcases hn : r.LaunchTemplateName with _ | n
  · rcases hi : r.LaunchTemplateId with _ | i
    · rfl
    · simp [countMutating, describe_lt_call_trace, List.filter, ApiCall.isMutating]
  · simp [countMutating, describe_lt_call_trace, List.filter, ApiCall.isMutating]

theorem countMutating_describe_lt_version {σ : Type} (conn : Connection σ) (r : LTRef)
    (v : String) (s : σ) : countMutating (describe_lt_version conn r v s).2.1 = 0 := by
  unfold describe_lt_version
  rcases hn : r.LaunchTemplateName with _ | n
  · rcases hi : r.LaunchTemplateId with _ | i
    · rfl
    · simp [countMutating, describe_lt_version_call_trace, List.filter, ApiCall.isMutating]
  · simp [countMutating, describe_lt_version_call_trace, List.filter, ApiCall.isMutating]

theorem countMutating_create_lt {σ : Type} (conn : Connection σ) (q : LaunchTemplateReq)
    (s : σ) : countMutating (create_lt conn q s).2.1 = 1 := by
  unfold create_lt
  rcases h : conn.step s (ApiCall.createLaunchTemplate q) with ⟨s', o⟩
  rcases o with r | e | e <;> rfl

theorem countMutating_create_lt_version {σ : Type} (conn : Connection σ)
    (q : LaunchTemplateReq) (s : σ) :
    countMutating (create_lt_version conn q s).2.1 = 1 := by
  unfold create_lt_version
  rcases h : conn.step s (ApiCall.createLaunchTemplateVersion q) with ⟨s', o⟩
  rcases o with r | e | e <;> rfl

theorem countMutating_converger_final {σ : Type} (conn : Connection σ) (r : LTRef)
    (changed : Bool) (s : σ) :
    countMutating (converger_final conn r changed s).2.1 ≤ 0 := by
  unfold converger_final
  refine le_trans (countMutating_seqE_le (m := 0) (n := 0)
    (le_of_eq (countMutating_describe_lt conn r s)) ?_) (by omega)
  intro a s1
  rcases a with _ | lt
  · simp [countMutating]
  · refine le_trans (countMutating_seqE_le (m := 0) (n := 0)
      (le_of_eq (countMutating_describe_lt_version conn r _ s1)) ?_) (by omega)
    intro b s2
    simp [countMutating]

theorem countMutating_converger_branch {σ : Type} (conn : Connection σ)
    (q : LaunchTemplateReq) (r : LTRef) (lt0 : Option LTRecord) (s : σ) :
    countMutating (converger_branch conn q r lt0 s).2.1 ≤ 1 := by
  rcases lt0 with _ | lt
  · unfold converger_branch
    dsimp only
    simp only [pyDictIsNotNone, if_true]
    refine le_trans (countMutating_seqE_le (m := 1) (n := 0)
      (le_of_eq (countMutating_create_lt conn q s)) ?_) (by omega)
    intro a s1
    refine le_trans (countMutating_seqE_le (m := 0) (n := 0)
      (le_of_eq (countMutating_describe_lt conn r s1)) ?_) (by omega)
    intro b s2
    simp [countMutating]
  · unfold converger_branch
    dsimp only
    by_cases hc : (pyDictTruthy q.LaunchTemplateData && pyDictIsNotNone q.LaunchTemplateData) = true
    · rw [if_pos hc]
      refine le_trans (countMutating_seqE_le (m := 0) (n := 1)
        (le_of_eq (countMutating_describe_lt_version conn r _ s)) ?_) (by omega)
      intro ltv s1
      by_cases hne : ltv.LaunchTemplateData ≠ q.LaunchTemplateData
      · rw [if_pos hne]
        refine le_trans (countMutating_seqE_le (m := 1) (n := 0)
          (le_of_eq (countMutating_create_lt_version conn q s1)) ?_) (by omega)
        intro a s2
        refine le_trans (countMutating_seqE_le (m := 0) (n := 0)
          (le_of_eq (countMutating_describe_lt conn r s2)) ?_) (by omega)
        intro b s3
        simp [countMutating]
      · rw [if_neg hne]
        simp [countMutating]
    · rw [if_neg hc]
      simp [countMutating]

theorem describe_lt_version_trace_shape {σ : Type} (conn : Connection σ) (r : LTRef)
    (v : String) (s : σ) :
    (describe_lt_version conn r v s).2.1 = [] ∨
    (∃ n, (describe_lt_version conn r v s).2.1 =
      [ApiCall.describeLaunchTemplateVersionsByName n v]) ∨
    (∃ i, (describe_lt_version conn r v s).2.1 =
      [ApiCall.describeLaunchTemplateVersionsById i v]) := by
  unfold describe_lt_version
  rcases hn : r.LaunchTemplateName with _ | n
  · rcases hi : r.LaunchTemplateId with _ | i
    · exact Or.inl rfl
    · exact Or.inr (Or.inr ⟨i, describe_lt_version_call_trace conn _ v s⟩)
  · exact Or.inr (Or.inl ⟨n, describe_lt_version_call_trace conn _ v s⟩)

theorem delete_lt_trace_shape {σ : Type} (conn : Connection σ) (r : LTRef) (s : σ) :
    (delete_lt conn r s).2.1 = [] ∨
    (∃ n, (delete_lt conn r s).2.1 = [ApiCall.deleteLaunchTemplateByName n]) ∨
    (∃ i, (delete_lt conn r s).2.1 = [ApiCall.deleteLaunchTemplateById i]) := by
  unfold delete_lt
  rcases hn : r.LaunchTemplateName with _ | n
  · rcases hi : r.LaunchTemplateId with _ | i
    · exact Or.inl rfl
    · exact Or.inr (Or.inr ⟨i, delete_lt_call_trace conn _ s⟩)
  · exact Or.inr (Or.inl ⟨n, delete_lt_call_trace conn _ s⟩)

theorem delete_lt_version_trace_shape {σ : Type} (conn : Connection σ) (r : LTRef) (s : σ) :
    (delete_lt_version conn r s).2.1 = [] ∨
    (∃ n, (delete_lt_version conn r s).2.1 =
      [ApiCall.deleteLaunchTemplateVersionsByName n r.Version]) ∨
    (∃ i, (delete_lt_version conn r s).2.1 =
      [ApiCall.deleteLaunchTemplateVersionsById i r.Version]) := by
  unfold delete_lt_version
  rcases hn : r.LaunchTemplateName with _ | n
  · rcases hi : r.LaunchTemplateId with _ | i
    · exact Or.inl rfl
    · exact Or.inr (Or.inr ⟨i, delete_lt_version_call_trace conn _ s⟩)
  · exact Or.inr (Or.inl ⟨n, delete_lt_version_call_trace conn _ s⟩)

theorem delete_lt_call_normal {σ : Type} (conn : Connection σ) (c : ApiCall) (s : σ)
    {s' : σ} {g : List ApiCall} {resp : Response}
    (h : delete_lt_call conn c s = (s', g, Out.normal resp)) : g = [c] := by
  unfold delete_lt_call at h
  rcases hs : conn.step s c with ⟨s0, o⟩
  rw [hs] at h
  rcases o with r | e | e
  · exact (congrArg (fun x => x.2.1) h).symm
  · exact absurd (congrArg (fun x => x.2.2) h) (by simp)
  · exact absurd (congrArg (fun x => x.2.2) h) (by simp)

theorem delete_lt_version_call_normal {σ : Type} (conn : Connection σ) (c : ApiCall) (s : σ)
    {s' : σ} {g : List ApiCall} {resp : Response}
    (h : delete_lt_version_call conn c s = (s', g, Out.normal resp)) : g = [c] := by
  unfold delete_lt_version_call at h
  rcases hs : conn.step s c with ⟨s0, o⟩
  rw [hs] at h
  rcases o with r | e | e
  · exact (congrArg (fun x => x.2.1) h).symm
  · exact absurd (congrArg (fun x => x.2.2) h) (by simp)
  · exact absurd (congrArg (fun x => x.2.2) h) (by simp)

theorem delete_lt_normal {σ : Type} (conn : Connection σ) (r : LTRef) (s : σ)
    {s' : σ} {g : List ApiCall} {resp : Response}
    (h : delete_lt conn r s = (s', g, Out.normal resp)) :
    (∃ n, g = [ApiCall.deleteLaunchTemplateByName n]) ∨
    (∃ i, g = [ApiCall.deleteLaunchTemplateById i]) := by
  unfold delete_lt at h
  rcases hn : r.LaunchTemplateName with _ | n
  · rw [hn] at h
    rcases hi : r.LaunchTemplateId with _ | i
    · rw [hi] at h
      exact absurd (congrArg (fun x => x.2.2) h) (by simp)
    · rw [hi] at h
      exact Or.inr ⟨i, delete_lt_call_normal conn _ s h⟩
  · rw [hn] at h
    exact Or.inl ⟨n, delete_lt_call_normal conn _ s h⟩

theorem delete_lt_version_normal {σ : Type} (conn : Connection σ) (r : LTRef) (s : σ)
    {s' : σ} {g : List ApiCall} {resp : Response}
    (h : delete_lt_version conn r s = (s', g, Out.normal resp)) :
    (∃ n, g = [ApiCall.deleteLaunchTemplateVersionsByName n r.Version]) ∨
    (∃ i, g = [ApiCall.deleteLaunchTemplateVersionsById i r.Version]) := by
  unfold delete_lt_version at h
  rcases hn : r.LaunchTemplateName with _ | n
  · rw [hn] at h
    rcases hi : r.LaunchTemplateId with _ | i
    · rw [hi] at h
      exact absurd (congrArg (fun x => x.2.2) h) (by simp)
    · rw [hi] at h
      exact Or.inr ⟨i, delete_lt_version_call_normal conn _ s h⟩
  · rw [hn] at h
    exact Or.inl ⟨n, delete_lt_version_call_normal conn _ s h⟩

theorem findTemplate_cons_self (ts : List CloudLT) (t : CloudLT) (n : String)
    (h : t.ltName = n) : findTemplate (t :: ts) n = some t := by
  simp [findTemplate, List.find?_cons, h]

theorem findTemplate_replace_self (ts : List CloudLT) (n : String) (t' : CloudLT)
    (h' : t'.ltName = n) (h : (findTemplate ts n).isSome = true) :
    findTemplate (replaceTemplate ts n t') n = some t' := by
  induction ts with
  | nil => simp [findTemplate] at h
  | cons u us ih =>
    show findTemplate ((if (u.ltName == n) = true then t' else u) :: replaceTemplate us n t') n =
      some t'
    by_cases hu : (u.ltName == n) = true
    · rw [if_pos hu]
      exact findTemplate_cons_self _ _ _ h'
    · rw [if_neg hu]
      have hb : (u.ltName == n) = false := by
        cases hx : (u.ltName == n)
        · rfl
        · exact absurd hx hu
      have hstep : findTemplate (u :: replaceTemplate us n t') n =
          findTemplate (replaceTemplate us n t') n := by
        simp [findTemplate, List.find?_cons, hb]
      rw [hstep]
      apply ih
      have hh : findTemplate (u :: us) n = findTemplate us n := by
        simp [findTemplate, List.find?_cons, hb]
      rw [hh] at h
      exact h

theorem describe_lt_cloud (s : Cloud) (p : PresentParams) :
    describe_lt cloudConn (ltRefOf p) s =
      (s, [ApiCall.describeLaunchTemplatesByName p.name],
       match findTemplate s.templates p.name with
       | some t => Out.normal (some (recordOf t))
       | none => Out.normal none) := by
  unfold describe_lt ltRefOf describe_lt_call cloudConn Cloud.step
  dsimp only
  rcases h : findTemplate s.templates p.name with _ | t <;> simp [h]

theorem describe_lt_version_cloud (s : Cloud) (p : PresentParams) (v : String) :
    describe_lt_version cloudConn (ltRefOf p) v s =
      (s, [ApiCall.describeLaunchTemplateVersionsByName p.name v],
       match findTemplate s.templates p.name with
       | some t =>
           (match findVersion t v with
            | some vr => Out.normal (versionRecordOf vr)
            | none => Out.fail ("Failed to describe launch template version number: " ++ v) none)
       | none => Out.fail ("Failed to describe launch template version number: " ++ v) none) := by
  unfold describe_lt_version ltRefOf describe_lt_version_call cloudConn Cloud.step
  dsimp only
  rcases h : findTemplate s.templates p.name with _ | t
  · simp [h]
  · rcases hv : findVersion t v with _ | vr <;> simp [h, hv]

theorem create_lt_cloud (s : Cloud) (q : LaunchTemplateReq)
    (h : findTemplate s.templates q.LaunchTemplateName = none) :
    create_lt cloudConn q s =
      (s.createTemplate q, [ApiCall.createLaunchTemplate q], Out.normal ()) := by
  unfold create_lt cloudConn Cloud.step
  dsimp only
  simp [h]

theorem create_lt_version_cloud (s : Cloud) (q : LaunchTemplateReq) (t : CloudLT)
    (h : findTemplate s.templates q.LaunchTemplateName = some t) :
    create_lt_version cloudConn q s =
      (s.createVersion q, [ApiCall.createLaunchTemplateVersion q], Out.normal ()) := by
  unfold create_lt_version cloudConn Cloud.step
  dsimp only
  simp [h]

theorem converger_run_absent (s : Cloud) (p : PresentParams)
    (h : findTemplate s.templates p.name = none) :
    create_launch_template_or_version cloudConn p s =
      (s.createTemplate (buildLaunchTemplate p),
       [ApiCall.describeLaunchTemplatesByName p.name,
        ApiCall.createLaunchTemplate (buildLaunchTemplate p),
        ApiCall.describeLaunchTemplatesByName p.name,
        ApiCall.describeLaunchTemplatesByName p.name,
        ApiCall.describeLaunchTemplateVersionsByName p.name (toString (1 : Nat))],
       Out.normal
         { changed := true,
           results := ResultsPayload.present
             { id := s.mintId, name := p.name, create_time := s.mintTime,
               default_version_number := 1, latest_version_number := 1,
               latest_version :=
                 { launch_template_data := (buildLaunchTemplate p).LaunchTemplateData,
                   create_time := s.mintTime } } }) := by
  have h2 : findTemplate s.templates (buildLaunchTemplate p).LaunchTemplateName = none := h
  have hfind : findTemplate (s.createTemplate (buildLaunchTemplate p)).templates p.name =
      some (s.newTemplate (buildLaunchTemplate p)) :=
    findTemplate_cons_self _ _ _ rfl
  have hver : findVersion (s.newTemplate (buildLaunchTemplate p)) (toString (1 : Nat)) =
      some { number := 1, data := (buildLaunchTemplate p).LaunchTemplateData,
             createTime := s.mintTime } := by
    simp [findVersion, Cloud.newTemplate, List.find?_cons]
  have step1 : describe_lt cloudConn (ltRefOf p) s =
      (s, [ApiCall.describeLaunchTemplatesByName p.name], Out.normal none) := by
    rw [describe_lt_cloud, h]
  have step2 : create_lt cloudConn (buildLaunchTemplate p) s =
      (s.createTemplate (buildLaunchTemplate p),
       [ApiCall.createLaunchTemplate (buildLaunchTemplate p)], Out.normal ()) :=
    create_lt_cloud s (buildLaunchTemplate p) h2
  have step3 : describe_lt cloudConn (ltRefOf p) (s.createTemplate (buildLaunchTemplate p)) =
      (s.createTemplate (buildLaunchTemplate p),
       [ApiCall.describeLaunchTemplatesByName p.name],
       Out.normal (some (recordOf (s.newTemplate (buildLaunchTemplate p))))) := by
    rw [describe_lt_cloud, hfind]
  have step4 : describe_lt_version cloudConn (ltRefOf p) (toString (1 : Nat))
      (s.createTemplate (buildLaunchTemplate p)) =
      (s.createTemplate (buildLaunchTemplate p),
       [ApiCall.describeLaunchTemplateVersionsByName p.name (toString (1 : Nat))],
       Out.normal (versionRecordOf
         { number := 1, data := (buildLaunchTemplate p).LaunchTemplateData,
           createTime := s.mintTime })) := by
    rw [describe_lt_version_cloud, hfind]
    dsimp only
    rw [hver]
  show (seqE (describe_lt cloudConn (ltRefOf p) s) fun lt0 s1 =>
      seqE (converger_branch cloudConn (buildLaunchTemplate p) (ltRefOf p) lt0 s1) fun ch s2 =>
        converger_final cloudConn (ltRefOf p) ch s2) = _
  rw [step1]
  simp only [seqE]
  unfold converger_branch
  simp only [pyDictIsNotNone, if_true]
  rw [step2]
  simp only [seqE]
  rw [step3]
  simp only [seqE]
  unfold converger_final
  rw [step3]
  simp only [seqE]
  rw [show toString (recordOf (s.newTemplate (buildLaunchTemplate p))).LatestVersionNumber =
      toString (1 : Nat) from rfl]
  rw [step4]
  simp only [seqE]
  simp [recordOf, Cloud.newTemplate, versionRecordOf, to_text, Cloud.mintId, Cloud.mintTime,
    buildLaunchTemplate]

theorem ltName_of_findTemplate {ts : List CloudLT} {n : String} {t : CloudLT}
    (h : findTemplate ts n = some t) : t.ltName = n := by
  have := List.find?_some h
  exact eq_of_beq this

theorem converger_run_present_unequal (s : Cloud) (p : PresentParams) (t : CloudLT)
    (vr : CloudVersion)
    (h1 : findTemplate s.templates p.name = some t)
    (h2 : findVersion t (toString t.latestVersionNumber) = some vr)
    (hD : (buildLaunchTemplate p).LaunchTemplateData.isEmptyDict = false)
    (hne : vr.data ≠ (buildLaunchTemplate p).LaunchTemplateData) :
    create_launch_template_or_version cloudConn p s =
      (s.createVersion (buildLaunchTemplate p),
       [ApiCall.describeLaunchTemplatesByName p.name,
        ApiCall.describeLaunchTemplateVersionsByName p.name (toString t.latestVersionNumber),
        ApiCall.createLaunchTemplateVersion (buildLaunchTemplate p),
        ApiCall.describeLaunchTemplatesByName p.name,
        ApiCall.describeLaunchTemplatesByName p.name,
        ApiCall.describeLaunchTemplateVersionsByName p.name
          (toString (t.latestVersionNumber + 1))],
       Out.normal
         { changed := true,
           results := ResultsPayload.present
             { id := t.ltId, name := t.ltName, create_time := t.createTime,
               default_version_number := t.defaultVersionNumber,
               latest_version_number := t.latestVersionNumber + 1,
               latest_version :=
                 { launch_template_data := (buildLaunchTemplate p).LaunchTemplateData,
                   create_time := s.mintTime } } }) := by
  have hname : t.ltName = p.name := ltName_of_findTemplate h1
  have hcv : s.createVersion (buildLaunchTemplate p) =
      { templates := replaceTemplate s.templates p.name
          (t.withNewVersion (buildLaunchTemplate p) s.mintTime)
        nextId := s.nextId + 1 } := by
    unfold Cloud.createVersion
    rw [show findTemplate s.templates (buildLaunchTemplate p).LaunchTemplateName = some t from h1]
    rfl
  have hfind2 : findTemplate (s.createVersion (buildLaunchTemplate p)).templates p.name =
      some (t.withNewVersion (buildLaunchTemplate p) s.mintTime) := by
    rw [hcv]
    exact findTemplate_replace_self _ _ _ (by simp [CloudLT.withNewVersion, hname])
      (by rw [h1]; rfl)
  have hver2 : findVersion (t.withNewVersion (buildLaunchTemplate p) s.mintTime)
      (toString (t.latestVersionNumber + 1)) =
      some { number := t.latestVersionNumber + 1,
             data := (buildLaunchTemplate p).LaunchTemplateData,
             createTime := s.mintTime } := by
    simp [CloudLT.withNewVersion, findVersion, List.find?_cons]
  have stepD : describe_lt cloudConn (ltRefOf p) s =
      (s, [ApiCall.describeLaunchTemplatesByName p.name], Out.normal (some (recordOf t))) := by
    rw [describe_lt_cloud, h1]
  have stepV1 : describe_lt_version cloudConn (ltRefOf p) (toString t.latestVersionNumber) s =
      (s, [ApiCall.describeLaunchTemplateVersionsByName p.name (toString t.latestVersionNumber)],
       Out.normal (versionRecordOf vr)) := by
    rw [describe_lt_version_cloud, h1]
    dsimp only
    rw [h2]
  have stepCV : create_lt_version cloudConn (buildLaunchTemplate p) s =
      (s.createVersion (buildLaunchTemplate p),
       [ApiCall.createLaunchTemplateVersion (buildLaunchTemplate p)], Out.normal ()) :=
    create_lt_version_cloud s (buildLaunchTemplate p) t h1
  have stepD2 : describe_lt cloudConn (ltRefOf p) (s.createVersion (buildLaunchTemplate p)) =
      (s.createVersion (buildLaunchTemplate p),
       [ApiCall.describeLaunchTemplatesByName p.name],
       Out.normal (some (recordOf (t.withNewVersion (buildLaunchTemplate p) s.mintTime)))) := by
    rw [describe_lt_cloud, hfind2]
  have stepV2 : describe_lt_version cloudConn (ltRefOf p)
      (toString (t.latestVersionNumber + 1)) (s.createVersion (buildLaunchTemplate p)) =
      (s.createVersion (buildLaunchTemplate p),
       [ApiCall.describeLaunchTemplateVersionsByName p.name
         (toString (t.latestVersionNumber + 1))],
       Out.normal (versionRecordOf
         { number := t.latestVersionNumber + 1,
           data := (buildLaunchTemplate p).LaunchTemplateData,
           createTime := s.mintTime })) := by
    rw [describe_lt_version_cloud, hfind2]
    dsimp only
    rw [hver2]
  have hcond : (pyDictTruthy (buildLaunchTemplate p).LaunchTemplateData &&
      pyDictIsNotNone (buildLaunchTemplate p).LaunchTemplateData) = true := by
    simp [pyDictTruthy, pyDictIsNotNone, hD]
  show (seqE (describe_lt cloudConn (ltRefOf p) s) fun lt0 s1 =>
      seqE (converger_branch cloudConn (buildLaunchTemplate p) (ltRefOf p) lt0 s1) fun ch s2 =>
        converger_final cloudConn (ltRefOf p) ch s2) = _
  rw [stepD]
  simp only [seqE]
  unfold converger_branch
  try dsimp only
  rw [if_pos hcond]
  rw [show toString (recordOf t).LatestVersionNumber = toString t.latestVersionNumber from rfl]
  rw [stepV1]
  simp only [seqE]
  rw [if_pos (show (versionRecordOf vr).LaunchTemplateData ≠
      (buildLaunchTemplate p).LaunchTemplateData from hne)]
  rw [stepCV]
  simp only [seqE]
  rw [stepD2]
  simp only [seqE]
  unfold converger_final
  rw [stepD2]
  simp only [seqE]
  rw [show toString (recordOf (t.withNewVersion (buildLaunchTemplate p) s.mintTime)).LatestVersionNumber =
      toString (t.latestVersionNumber + 1) from rfl]
  rw [stepV2]
  simp only [seqE]
  simp [recordOf, versionRecordOf, CloudLT.withNewVersion, to_text]

theorem converger_run_present_equal (s : Cloud) (p : PresentParams) (t : CloudLT)
    (vr : CloudVersion)
    (h1 : findTemplate s.templates p.name = some t)
    (h2 : findVersion t (toString t.latestVersionNumber) = some vr)
    (hD : (buildLaunchTemplate p).LaunchTemplateData.isEmptyDict = false)
    (heq : vr.data = (buildLaunchTemplate p).LaunchTemplateData) :
    create_launch_template_or_version cloudConn p s =
      (s,
       [ApiCall.describeLaunchTemplatesByName p.name,
        ApiCall.describeLaunchTemplateVersionsByName p.name (toString t.latestVersionNumber),
        ApiCall.describeLaunchTemplatesByName p.name,
        ApiCall.describeLaunchTemplateVersionsByName p.name (toString t.latestVersionNumber)],
       Out.normal
         { changed := false,
           results := ResultsPayload.present
             { id := t.ltId, name := t.ltName, create_time := t.createTime,
               default_version_number := t.defaultVersionNumber,
               latest_version_number := t.latestVersionNumber,
               latest_version :=
                 { launch_template_data := vr.data,
                   create_time := vr.createTime } } }) := by
  have stepD : describe_lt cloudConn (ltRefOf p) s =
      (s, [ApiCall.describeLaunchTemplatesByName p.name], Out.normal (some (recordOf t))) := by
    rw [describe_lt_cloud, h1]
  have stepV1 : describe_lt_version cloudConn (ltRefOf p) (toString t.latestVersionNumber) s =
      (s, [ApiCall.describeLaunchTemplateVersionsByName p.name (toString t.latestVersionNumber)],
       Out.normal (versionRecordOf vr)) := by
    rw [describe_lt_version_cloud, h1]
    dsimp only
    rw [h2]
  have hcond : (pyDictTruthy (buildLaunchTemplate p).LaunchTemplateData &&
      pyDictIsNotNone (buildLaunchTemplate p).LaunchTemplateData) = true := by
    simp [pyDictTruthy, pyDictIsNotNone, hD]
  show (seqE (describe_lt cloudConn (ltRefOf p) s) fun lt0 s1 =>
      seqE (converger_branch cloudConn (buildLaunchTemplate p) (ltRefOf p) lt0 s1) fun ch s2 =>
        converger_final cloudConn (ltRefOf p) ch s2) = _
  rw [stepD]
  simp only [seqE]
  unfold converger_branch
  try dsimp only
  rw [if_pos hcond]
  rw [show toString (recordOf t).LatestVersionNumber = toString t.latestVersionNumber from rfl]
  rw [stepV1]
  simp only [seqE]
  rw [if_neg (show ¬((versionRecordOf vr).LaunchTemplateData ≠
      (buildLaunchTemplate p).LaunchTemplateData) from by simp [versionRecordOf, heq])]
  simp only [seqE]
  unfold converger_final
  rw [stepD]
  simp only [seqE]
  rw [show toString (recordOf t).LatestVersionNumber = toString t.latestVersionNumber from rfl]
  rw [stepV1]
  simp only [seqE]
  simp [recordOf, versionRecordOf, to_text]

theorem converger_run_present_empty (s : Cloud) (p : PresentParams) (t : CloudLT)
    (vr : CloudVersion)
    (h1 : findTemplate s.templates p.name = some t)
    (h2 : findVersion t (toString t.latestVersionNumber) = some vr)
    (hD : (buildLaunchTemplate p).LaunchTemplateData.isEmptyDict = true) :
    create_launch_template_or_version cloudConn p s =
      (s,
       [ApiCall.describeLaunchTemplatesByName p.name,
        ApiCall.describeLaunchTemplatesByName p.name,
        ApiCall.describeLaunchTemplateVersionsByName p.name (toString t.latestVersionNumber)],
       Out.normal
         { changed := false,
           results := ResultsPayload.present
             { id := t.ltId, name := t.ltName, create_time := t.createTime,
               default_version_number := t.defaultVersionNumber,
               latest_version_number := t.latestVersionNumber,
               latest_version :=
                 { launch_template_data := vr.data,
                   create_time := vr.createTime } } }) := by
  have stepD : describe_lt cloudConn (ltRefOf p) s =
      (s, [ApiCall.describeLaunchTemplatesByName p.name], Out.normal (some (recordOf t))) := by
    rw [describe_lt_cloud, h1]
  have stepV1 : describe_lt_version cloudConn (ltRefOf p) (toString t.latestVersionNumber) s =
      (s, [ApiCall.describeLaunchTemplateVersionsByName p.name (toString t.latestVersionNumber)],
       Out.normal (versionRecordOf vr)) := by
    rw [describe_lt_version_cloud, h1]
    dsimp only
    rw [h2]
  have hcond : ¬((pyDictTruthy (buildLaunchTemplate p).LaunchTemplateData &&
      pyDictIsNotNone (buildLaunchTemplate p).LaunchTemplateData) = true) := by
    simp [pyDictTruthy, hD]
  show (seqE (describe_lt cloudConn (ltRefOf p) s) fun lt0 s1 =>
      seqE (converger_branch cloudConn (buildLaunchTemplate p) (ltRefOf p) lt0 s1) fun ch s2 =>
        converger_final cloudConn (ltRefOf p) ch s2) = _
  rw [stepD]
  simp only [seqE]
  unfold converger_branch
  try dsimp only
  rw [if_neg hcond]
  simp only [seqE]
  unfold converger_final
  rw [stepD]
  simp only [seqE]
  rw [show toString (recordOf t).LatestVersionNumber = toString t.latestVersionNumber from rfl]
  rw [stepV1]
  simp only [seqE]
  simp [recordOf, versionRecordOf, to_text]

theorem converger_run_noversion_nonempty (s : Cloud) (p : PresentParams) (t : CloudLT)
    (h1 : findTemplate s.templates p.name = some t)
    (h2 : findVersion t (toString t.latestVersionNumber) = none)
    (hD : (buildLaunchTemplate p).LaunchTemplateData.isEmptyDict = false) :
    create_launch_template_or_version cloudConn p s =
      (s,
       [ApiCall.describeLaunchTemplatesByName p.name,
        ApiCall.describeLaunchTemplateVersionsByName p.name (toString t.latestVersionNumber)],
       Out.fail ("Failed to describe launch template version number: " ++
         toString t.latestVersionNumber) none) := by
  have stepD : describe_lt cloudConn (ltRefOf p) s =
      (s, [ApiCall.describeLaunchTemplatesByName p.name], Out.normal (some (recordOf t))) := by
    rw [describe_lt_cloud, h1]
  have stepV1 : describe_lt_version cloudConn (ltRefOf p) (toString t.latestVersionNumber) s =
      (s, [ApiCall.describeLaunchTemplateVersionsByName p.name (toString t.latestVersionNumber)],
       Out.fail ("Failed to describe launch template version number: " ++
         toString t.latestVersionNumber) none) := by
    rw [describe_lt_version_cloud, h1]
    dsimp only
    rw [h2]
  have hcond : (pyDictTruthy (buildLaunchTemplate p).LaunchTemplateData &&
      pyDictIsNotNone (buildLaunchTemplate p).LaunchTemplateData) = true := by
    simp [pyDictTruthy, pyDictIsNotNone, hD]
  show (seqE (describe_lt cloudConn (ltRefOf p) s) fun lt0 s1 =>
      seqE (converger_branch cloudConn (buildLaunchTemplate p) (ltRefOf p) lt0 s1) fun ch s2 =>
        converger_final cloudConn (ltRefOf p) ch s2) = _
  rw [stepD]
  simp only [seqE]
  unfold converger_branch
  try dsimp only
  rw [if_pos hcond]
  rw [show toString (recordOf t).LatestVersionNumber = toString t.latestVersionNumber from rfl]
  rw [stepV1]
  simp only [seqE]
  simp

theorem converger_run_noversion_empty (s : Cloud) (p : PresentParams) (t : CloudLT)
    (h1 : findTemplate s.templates p.name = some t)
    (h2 : findVersion t (toString t.latestVersionNumber) = none)
    (hD : (buildLaunchTemplate p).LaunchTemplateData.isEmptyDict = true) :
    create_launch_template_or_version cloudConn p s =
      (s,
       [ApiCall.describeLaunchTemplatesByName p.name,
        ApiCall.describeLaunchTemplatesByName p.name,
        ApiCall.describeLaunchTemplateVersionsByName p.name (toString t.latestVersionNumber)],
       Out.fail ("Failed to describe launch template version number: " ++
         toString t.latestVersionNumber) none) := by
  have stepD : describe_lt cloudConn (ltRefOf p) s =
      (s, [ApiCall.describeLaunchTemplatesByName p.name], Out.normal (some (recordOf t))) := by
    rw [describe_lt_cloud, h1]
  have stepV1 : describe_lt_version cloudConn (ltRefOf p) (toString t.latestVersionNumber) s =
      (s, [ApiCall.describeLaunchTemplateVersionsByName p.name (toString t.latestVersionNumber)],
       Out.fail ("Failed to describe launch template version number: " ++
         toString t.latestVersionNumber) none) := by
    rw [describe_lt_version_cloud, h1]
    dsimp only
    rw [h2]
  have hcond : ¬((pyDictTruthy (buildLaunchTemplate p).LaunchTemplateData &&
      pyDictIsNotNone (buildLaunchTemplate p).LaunchTemplateData) = true) := by
    simp [pyDictTruthy, hD]
  show (seqE (describe_lt cloudConn (ltRefOf p) s) fun lt0 s1 =>
      seqE (converger_branch cloudConn (buildLaunchTemplate p) (ltRefOf p) lt0 s1) fun ch s2 =>
        converger_final cloudConn (ltRefOf p) ch s2) = _
  rw [stepD]
  simp only [seqE]
  unfold converger_branch
  try dsimp only
  rw [if_neg hcond]
  simp only [seqE]
  unfold converger_final
  rw [stepD]
  simp only [seqE]
  rw [show toString (recordOf t).LatestVersionNumber = toString t.latestVersionNumber from rfl]
  rw [stepV1]
  simp only [seqE]
  simp

theorem seqE_normal_inv2 {σ α β : Type} (x : StepRes σ α) (f : α → σ → StepRes σ β)
    {b : β} (h : (seqE x f).2.2 = Out.normal b) :
    ∃ a, x.2.2 = Out.normal a ∧ (f a x.1).2.2 = Out.normal b ∧
      (seqE x f).2.1 = x.2.1 ++ (f a x.1).2.1 ∧ (seqE x f).1 = (f a x.1).1 := by
  rcases x with ⟨s0, g0, o⟩
  rcases o with a | ⟨m, d⟩ | _
  · rcases hf : f a s0 with ⟨s', g', r⟩
    refine ⟨a, rfl, ?_, ?_, ?_⟩
    · rw [hf]
      simp only [seqE, hf] at h
      exact h
    · simp only [seqE, hf]
    · simp only [seqE, hf]
  · simp only [seqE] at h
    exact Out.noConfusion h
  · simp only [seqE] at h
    exact Out.noConfusion h

theorem describe_lt_ltRef_trace {σ : Type} (conn : Connection σ) (p : PresentParams) (s : σ) :
    (describe_lt conn (ltRefOf p) s).2.1 = [ApiCall.describeLaunchTemplatesByName p.name] :=
  describe_lt_call_trace conn _ s

theorem describe_lt_version_ltRef_trace {σ : Type} (conn : Connection σ) (p : PresentParams)
    (v : String) (s : σ) :
    (describe_lt_version conn (ltRefOf p) v s).2.1 =
      [ApiCall.describeLaunchTemplateVersionsByName p.name v] :=
  describe_lt_version_call_trace conn _ v s

theorem endsWithRefetch_append (g : List ApiCall) (n : String) (v : String) :
    endsWithRefetch (g ++ [ApiCall.describeLaunchTemplatesByName n,
      ApiCall.describeLaunchTemplateVersionsByName n v]) n = true := by
  unfold endsWithRefetch
  rw [List.reverse_append]
  simp

theorem converger_final_normal_inv {σ : Type} (conn : Connection σ) (p : PresentParams)
    (ch : Bool) (s : σ) {r : ModuleResults}
    (h : (converger_final conn (ltRefOf p) ch s).2.2 = Out.normal r) :
    (∃ v, (converger_final conn (ltRefOf p) ch s).2.1 =
      [ApiCall.describeLaunchTemplatesByName p.name,
       ApiCall.describeLaunchTemplateVersionsByName p.name v]) ∧
    (ResultsPayload.present? r.results).isSome = true ∧ r.changed = ch := by
  rcases hd : describe_lt conn (ltRefOf p) s with ⟨s1, g1, o1⟩
  have hg1 := describe_lt_ltRef_trace conn p s
  rw [hd] at hg1
  simp only at hg1
  unfold converger_final at h ⊢
  rw [hd] at h ⊢
  rcases o1 with ltOpt | ⟨mm, dd⟩ | _
  · simp only [seqE] at h ⊢
    rcases ltOpt with _ | lt
    · simp at h
    · try dsimp only at h
      try dsimp only
      rcases hv : describe_lt_version conn (ltRefOf p) (toString lt.LatestVersionNumber) s1
        with ⟨s2, g2, o2⟩
      have hg2 := describe_lt_version_ltRef_trace conn p (toString lt.LatestVersionNumber) s1
      rw [hv] at hg2
      simp only at hg2
      rw [hv] at h
      rcases o2 with ltv | ⟨mm, dd⟩ | _
      · try dsimp only at h
        try dsimp only
        simp only [Out.normal.injEq] at h
        subst h
        refine ⟨⟨toString lt.LatestVersionNumber, ?_⟩, rfl, rfl⟩
        rw [hg1, hg2]
        rfl
      · exact Out.noConfusion h
      · exact Out.noConfusion h
  · simp only [seqE] at h
    exact Out.noConfusion h
  · simp only [seqE] at h
    exact Out.noConfusion h

/-- C7: every normal Converger completion ends its call log with the
re-fetch pair (a describe of the template then a describe of its latest
version, hence after any mutation) and returns a present-state payload
with exactly the six result fields; over the deterministic provider that
payload is the canonical record of the resulting provider state; every
normal Remover completion returns the empty results object. -/
theorem results_canonical_shape :
    (∀ (σ : Type) (conn : Connection σ) (p : PresentParams) (s : σ) (r : ModuleResults),
       (create_launch_template_or_version conn p s).2.2 = Out.normal r →
       endsWithRefetch (create_launch_template_or_version conn p s).2.1 p.name = true ∧
       (ResultsPayload.present? r.results).isSome = true)
  ∧ (∀ (p : PresentParams) (s : Cloud) (r : ModuleResults),
       (create_launch_template_or_version cloudConn p s).2.2 = Out.normal r →
       ResultsPayload.present? r.results =
         canonicalResult (create_launch_template_or_version cloudConn p s).1 p.name)
  ∧ (∀ (σ : Type) (conn : Connection σ) (name id version : Option String) (s : σ)
       (r : ModuleResults),
       (delete_launch_template_or_version conn name id version s).2.2 = Out.normal r →
       r.results = ResultsPayload.empty) := by
  refine ⟨?_, ?_, ?_⟩
  · intro σ conn p s r hnor
    have hrun : create_launch_template_or_version conn p s =
        seqE (describe_lt conn (ltRefOf p) s) (fun lt0 s1 =>
          seqE (converger_branch conn (buildLaunchTemplate p) (ltRefOf p) lt0 s1) (fun ch s2 =>
            converger_final conn (ltRefOf p) ch s2)) := rfl
    rw [hrun] at hnor ⊢
    rcases seqE_normal_inv2 _ _ hnor with ⟨lt0, h1, h2, h3, h4⟩
    rcases seqE_normal_inv2 _ _ h2 with ⟨ch, h5, h6, h7, h8⟩
    rcases converger_final_normal_inv conn p ch _ h6 with ⟨⟨v, hv⟩, hpr, hch⟩
    refine ⟨?_, hpr⟩
    simp only [h3, h7, hv, ← List.append_assoc]
    exact endsWithRefetch_append _ p.name v
  · intro p s r hnor
    rcases hft : findTemplate s.templates p.name with _ | t
    · have hfind : findTemplate
          (s.createTemplate (buildLaunchTemplate p)).templates p.name =
          some (s.newTemplate (buildLaunchTemplate p)) := findTemplate_cons_self _ _ _ rfl
      have hver : findVersion (s.newTemplate (buildLaunchTemplate p))
          (toString (s.newTemplate (buildLaunchTemplate p)).latestVersionNumber) =
          some { number := 1, data := (buildLaunchTemplate p).LaunchTemplateData,
                 createTime := s.mintTime } := by
        simp [findVersion, Cloud.newTemplate, List.find?_cons]
      rw [converger_run_absent s p hft] at hnor ⊢
      simp only [Out.normal.injEq] at hnor
      subst hnor
      unfold canonicalResult
      rw [show (s.createTemplate (buildLaunchTemplate p),
          [ApiCall.describeLaunchTemplatesByName p.name,
           ApiCall.createLaunchTemplate (buildLaunchTemplate p),
           ApiCall.describeLaunchTemplatesByName p.name,
           ApiCall.describeLaunchTemplatesByName p.name,
           ApiCall.describeLaunchTemplateVersionsByName p.name (toString (1 : Nat))],
          (Out.normal
            { changed := true,
              results := ResultsPayload.present
                { id := s.mintId, name := p.name, create_time := s.mintTime,
                  default_version_number := 1, latest_version_number := 1,
                  latest_version :=
                    { launch_template_data := (buildLaunchTemplate p).LaunchTemplateData,
                      create_time := s.mintTime } } } : Out ModuleResults)).1 =
          s.createTemplate (buildLaunchTemplate p) from rfl]
      rw [hfind]
      try dsimp only
      rw [hver]
      rfl
    · rcases hfv : findVersion t (toString t.latestVersionNumber) with _ | vr
      · cases hD : (buildLaunchTemplate p).LaunchTemplateData.isEmptyDict with
        | false =>
            rw [converger_run_noversion_nonempty s p t hft hfv hD] at hnor
            exact Out.noConfusion hnor
        | true =>
            rw [converger_run_noversion_empty s p t hft hfv hD] at hnor
            exact Out.noConfusion hnor
      · cases hD : (buildLaunchTemplate p).LaunchTemplateData.isEmptyDict with
        | false =>
            by_cases hne : vr.data ≠ (buildLaunchTemplate p).LaunchTemplateData
            · have hcv : s.createVersion (buildLaunchTemplate p) =
                  { templates := replaceTemplate s.templates p.name
                      (t.withNewVersion (buildLaunchTemplate p) s.mintTime)
                    nextId := s.nextId + 1 } := by
                unfold Cloud.createVersion
                rw [show findTemplate s.templates
                    (buildLaunchTemplate p).LaunchTemplateName = some t from hft]
                rfl
              have hname : t.ltName = p.name := ltName_of_findTemplate hft
              have hfind2 : findTemplate
                  (s.createVersion (buildLaunchTemplate p)).templates p.name =
                  some (t.withNewVersion (buildLaunchTemplate p) s.mintTime) := by
                rw [hcv]
                exact findTemplate_replace_self _ _ _
                  (by simp [CloudLT.withNewVersion, hname]) (by rw [hft]; rfl)
              have hver2 : findVersion (t.withNewVersion (buildLaunchTemplate p) s.mintTime)
                  (toString (t.withNewVersion (buildLaunchTemplate p)
                    s.mintTime).latestVersionNumber) =
                  some { number := t.latestVersionNumber + 1,
                         data := (buildLaunchTemplate p).LaunchTemplateData,
                         createTime := s.mintTime } := by
                simp [CloudLT.withNewVersion, findVersion, List.find?_cons]
              rw [converger_run_present_unequal s p t vr hft hfv hD hne] at hnor ⊢
              simp only [Out.normal.injEq] at hnor
              subst hnor
              unfold canonicalResult
              rw [show (s.createVersion (buildLaunchTemplate p),
                  [ApiCall.describeLaunchTemplatesByName p.name,
                   ApiCall.describeLaunchTemplateVersionsByName p.name
                     (toString t.latestVersionNumber),
                   ApiCall.createLaunchTemplateVersion (buildLaunchTemplate p),
                   ApiCall.describeLaunchTemplatesByName p.name,
                   ApiCall.describeLaunchTemplatesByName p.name,
                   ApiCall.describeLaunchTemplateVersionsByName p.name
                     (toString (t.latestVersionNumber + 1))],
                  (Out.normal
                    { changed := true,
                      results := ResultsPayload.present
                        { id := t.ltId, name := t.ltName, create_time := t.createTime,
                          default_version_number := t.defaultVersionNumber,
                          latest_version_number := t.latestVersionNumber + 1,
                          latest_version :=
                            { launch_template_data :=
                                (buildLaunchTemplate p).LaunchTemplateData,
                              create_time := s.mintTime } } } : Out ModuleResults)).1 =
                  s.createVersion (buildLaunchTemplate p) from rfl]
              rw [hfind2]
              try dsimp only
              rw [hver2]
              rfl
            · have heq : vr.data = (buildLaunchTemplate p).LaunchTemplateData :=
                not_ne_iff.mp hne
              rw [converger_run_present_equal s p t vr hft hfv hD heq] at hnor ⊢
              simp only [Out.normal.injEq] at hnor
              subst hnor
              unfold canonicalResult
              rw [show ((s : Cloud),
                  [ApiCall.describeLaunchTemplatesByName p.name,
                   ApiCall.describeLaunchTemplateVersionsByName p.name
                     (toString t.latestVersionNumber),
                   ApiCall.describeLaunchTemplatesByName p.name,
                   ApiCall.describeLaunchTemplateVersionsByName p.name
                     (toString t.latestVersionNumber)],
                  (Out.normal
                    { changed := false,
                      results := ResultsPayload.present
                        { id := t.ltId, name := t.ltName, create_time := t.createTime,
                          default_version_number := t.defaultVersionNumber,
                          latest_version_number := t.latestVersionNumber,
                          latest_version :=
                            { launch_template_data := vr.data,
                              create_time := vr.createTime } } } : Out ModuleResults)).1 =
                  s from rfl]
              rw [hft]
              try dsimp only
              rw [hfv]
              rfl
        | true =>
            rw [converger_run_present_empty s p t vr hft hfv hD] at hnor ⊢
            simp only [Out.normal.injEq] at hnor
            subst hnor
            unfold canonicalResult
            rw [show ((s : Cloud),
                [ApiCall.describeLaunchTemplatesByName p.name,
                 ApiCall.describeLaunchTemplatesByName p.name,
                 ApiCall.describeLaunchTemplateVersionsByName p.name
                   (toString t.latestVersionNumber)],
                (Out.normal
                  { changed := false,
                    results := ResultsPayload.present
                      { id := t.ltId, name := t.ltName, create_time := t.createTime,
                        default_version_number := t.defaultVersionNumber,
                        latest_version_number := t.latestVersionNumber,
                        latest_version :=
                          { launch_template_data := vr.data,
                            create_time := vr.createTime } } } : Out ModuleResults)).1 =
                s from rfl]
            rw [hft]
            try dsimp only
            rw [hfv]
            rfl
  · intro σ conn name id version s r hnor
    rcases version with _ | v
    · have hrun : delete_launch_template_or_version conn name id none s =
          seqE (delete_lt conn ⟨name, id, none⟩ s) (fun _ s1 =>
            (s1, [], Out.normal ⟨true, ResultsPayload.empty⟩)) := rfl
      rw [hrun] at hnor
      rcases seqE_normal_inv2 _ _ hnor with ⟨resp, h1, h2, h3, h4⟩
      have hr := Out.normal.inj h2
      rw [← hr]
    · have hrun : delete_launch_template_or_version conn name id (some v) s =
          seqE (describe_lt_version conn ⟨name, id, some v⟩ v s) (fun _ s1 =>
            seqE (delete_lt_version conn ⟨name, id, some v⟩ s1) (fun _ s2 =>
              (s2, [], Out.normal ⟨true, ResultsPayload.empty⟩))) := rfl
      rw [hrun] at hnor
      rcases seqE_normal_inv2 _ _ hnor with ⟨ltv, h1, h2, h3, h4⟩
      rcases seqE_normal_inv2 _ _ h2 with ⟨resp, h5, h6, h7, h8⟩
      have hr := Out.normal.inj h6
      rw [← hr]

/-- Concrete witness for C7: a no-change Converger run against the
deterministic provider ends with the re-fetch pair and returns the
canonical payload, and a Remover run returns the empty results object. -/
theorem results_canonical_shape_witness :
    endsWithRefetch (create_launch_template_or_version cloudConn { name := "tpl" }
      sampleCloud).2.1 "tpl" = true
  ∧ ResultsPayload.present?
      ({ changed := false,
         results := ResultsPayload.present
           { id := "lt-0", name := "tpl", create_time := "time-0",
             default_version_number := 1, latest_version_number := 1,
             latest_version :=
               { launch_template_data := { ImageId := some "ami-1" },
                 create_time := "time-0" } } } : ModuleResults).results =
      canonicalResult
        (create_launch_template_or_version cloudConn { name := "tpl" } sampleCloud).1 "tpl"
  ∧ ({ changed := true, results := ResultsPayload.empty } : ModuleResults).results =
      ResultsPayload.empty :=
  ⟨(results_canonical_shape.1 Cloud cloudConn { name := "tpl" } sampleCloud
      { changed := false,
        results := ResultsPayload.present
          { id := "lt-0", name := "tpl", create_time := "time-0",
            default_version_number := 1, latest_version_number := 1,
            latest_version :=
              { launch_template_data := { ImageId := some "ami-1" },
                create_time := "time-0" } } } (by decide)).1,
   results_canonical_shape.2.1 { name := "tpl" } sampleCloud
      { changed := false,
        results := ResultsPayload.present
          { id := "lt-0", name := "tpl", create_time := "time-0",
            default_version_number := 1, latest_version_number := 1,
            latest_version :=
              { launch_template_data := { ImageId := some "ami-1" },
                create_time := "time-0" } } } (by decide),
   results_canonical_shape.2.2 Cloud cloudConn (some "tpl") none none sampleCloud
      { changed := true, results := ResultsPayload.empty } (by decide)⟩

/-- C8: in every Converger invocation, over any provider behaviour, the
call log contains at most one mutating API call (create-template,
create-template-version or any delete); the remaining calls are read-only
describes. -/
theorem converger_at_most_one_mutating_call {σ : Type} (conn : Connection σ)
    (p : PresentParams) (s : σ) :
    countMutating (create_launch_template_or_version conn p s).2.1 ≤ 1 := by
  unfold create_launch_template_or_version
  refine le_trans (countMutating_seqE_le (m := 0) (n := 1)
    (le_of_eq (countMutating_describe_lt conn _ s)) ?_) (by omega)
  intro lt0 s1
  refine le_trans (countMutating_seqE_le (m := 1) (n := 0)
    (countMutating_converger_branch conn _ _ lt0 s1) ?_) (by omega)
  intro ch s2
  exact countMutating_converger_final conn _ ch s2

/-- C4: with a version parameter the Remover only ever deletes via a
delete-versions call carrying exactly that version, without one it only
ever deletes via a whole-template delete call; every completed invocation
reports changed=true with exactly one delete call issued, and no completed
invocation reports changed=false. -/
theorem remover_dispatch {σ : Type} (conn : Connection σ) (name id version : Option String)
    (s : σ) :
    (∀ r, (delete_launch_template_or_version conn name id version s).2.2 = Out.normal r →
       r.changed = true ∧ r.results = ResultsPayload.empty)
  ∧ (version = none →
       ((delete_launch_template_or_version conn name id version s).2.1.all
          (fun c => !c.isDeleteVersions)) = true
     ∧ ∀ r, (delete_launch_template_or_version conn name id version s).2.2 = Out.normal r →
         ((delete_launch_template_or_version conn name id version s).2.1.filter
            ApiCall.isDeleteTemplate).length = 1)
  ∧ (∀ v, version = some v →
       ((delete_launch_template_or_version conn name id version s).2.1.all
          (fun c => !c.isDeleteTemplate)) = true
     ∧ ((delete_launch_template_or_version conn name id version s).2.1.all
          (fun c => !c.isDeleteVersions || (c.deleteVersionsArg == some (some v)))) = true
     ∧ ∀ r, (delete_launch_template_or_version conn name id version s).2.2 = Out.normal r →
         ((delete_launch_template_or_version conn name id version s).2.1.filter
            ApiCall.isDeleteVersions).length = 1) := by
  rcases version with _ | v
  · have hrun : delete_launch_template_or_version conn name id none s =
        seqE (delete_lt conn ⟨name, id, none⟩ s) (fun _ s1 =>
          (s1, [], Out.normal ⟨true, ResultsPayload.empty⟩)) := rfl
    rcases hd : delete_lt conn ⟨name, id, none⟩ s with ⟨s1, g1, o1⟩
    have hg1 := delete_lt_trace_shape conn ⟨name, id, none⟩ s
    rw [hd] at hg1
    simp only at hg1
    have hr := hrun
    rw [hd] at hr
    rcases o1 with resp | ⟨m, d⟩ | _
    · simp only [seqE, List.append_nil] at hr
      refine ⟨?_, ?_, ?_⟩
      · intro r hnor
        rw [hr] at hnor
        simp only [Out.normal.injEq] at hnor
        rw [← hnor]
        exact ⟨rfl, rfl⟩
      · intro _
        constructor
        · rw [hr]
          rcases hg1 with h0 | ⟨n, h0⟩ | ⟨i, h0⟩ <;>
            simp [h0, ApiCall.isDeleteVersions]
        · intro r _
          rw [hr]
          rcases delete_lt_normal conn _ s hd with ⟨n, h0⟩ | ⟨i, h0⟩ <;>
            simp [h0, ApiCall.isDeleteTemplate, List.filter]
      · intro v hv
        exact Option.noConfusion hv
    · simp only [seqE] at hr
      refine ⟨?_, ?_, ?_⟩
      · intro r hnor
        rw [hr] at hnor
        exact absurd hnor (by simp)
      · intro _
        constructor
        · rw [hr]
          rcases hg1 with h0 | ⟨n, h0⟩ | ⟨i, h0⟩ <;>
            simp [h0, ApiCall.isDeleteVersions]
        · intro r hnor
          rw [hr] at hnor
          exact absurd hnor (by simp)
      · intro v hv
        exact Option.noConfusion hv
    · simp only [seqE] at hr
      refine ⟨?_, ?_, ?_⟩
      · intro r hnor
        rw [hr] at hnor
        exact absurd hnor (by simp)
      · intro _
        constructor
        · rw [hr]
          rcases hg1 with h0 | ⟨n, h0⟩ | ⟨i, h0⟩ <;>
            simp [h0, ApiCall.isDeleteVersions]
        · intro r hnor
          rw [hr] at hnor
          exact absurd hnor (by simp)
      · intro v hv
        exact Option.noConfusion hv
  · have hrun : delete_launch_template_or_version conn name id (some v) s =
        seqE (describe_lt_version conn ⟨name, id, some v⟩ v s) (fun _ s1 =>
          seqE (delete_lt_version conn ⟨name, id, some v⟩ s1) (fun _ s2 =>
            (s2, [], Out.normal ⟨true, ResultsPayload.empty⟩))) := rfl
    rcases hd0 : describe_lt_version conn ⟨name, id, some v⟩ v s with ⟨s1, g0, o0⟩
    have hg0 := describe_lt_version_trace_shape conn ⟨name, id, some v⟩ v s
    rw [hd0] at hg0
    simp only at hg0
    have hr := hrun
    rw [hd0] at hr
    rcases o0 with ltv | ⟨m, d⟩ | _
    · rcases hd1 : delete_lt_version conn ⟨name, id, some v⟩ s1 with ⟨s2, g1, o1⟩
      have hg1 := delete_lt_version_trace_shape conn ⟨name, id, some v⟩ s1
      rw [hd1] at hg1
      simp only at hg1
      simp only [seqE, hd1] at hr
      rcases o1 with resp | ⟨m, d⟩ | _
      · simp only [List.append_nil] at hr
        refine ⟨?_, ?_, ?_⟩
        · intro r hnor
          rw [hr] at hnor
          simp only [Out.normal.injEq] at hnor
          rw [← hnor]
          exact ⟨rfl, rfl⟩
        · intro hv
          exact Option.noConfusion hv
        · intro v' hv
          have hvv : v' = v := by
            have := Option.some.inj hv
            exact this.symm
          subst hvv
          refine ⟨?_, ?_, ?_⟩
          · rw [hr]
            rcases hg0 with h0 | ⟨n, h0⟩ | ⟨i, h0⟩ <;>
              rcases hg1 with h1 | ⟨n1, h1⟩ | ⟨i1, h1⟩ <;>
                simp [h0, h1, ApiCall.isDeleteTemplate]
          · rw [hr]
            rcases hg0 with h0 | ⟨n, h0⟩ | ⟨i, h0⟩ <;>
              rcases hg1 with h1 | ⟨n1, h1⟩ | ⟨i1, h1⟩ <;>
                simp [h0, h1, ApiCall.isDeleteVersions, ApiCall.deleteVersionsArg]
          · intro r _
            rw [hr]
            rcases delete_lt_version_normal conn _ s1 hd1 with ⟨n1, h1⟩ | ⟨i1, h1⟩ <;>
              rcases hg0 with h0 | ⟨n, h0⟩ | ⟨i, h0⟩ <;>
                simp [h0, h1, ApiCall.isDeleteVersions, List.filter]
      · refine ⟨?_, ?_, ?_⟩
        · intro r hnor
          rw [hr] at hnor
          exact absurd hnor (by simp)
        · intro hv
          exact Option.noConfusion hv
        · intro v' hv
          have hvv : v' = v := (Option.some.inj hv).symm
          subst hvv
          refine ⟨?_, ?_, ?_⟩
          · rw [hr]
            rcases hg0 with h0 | ⟨n, h0⟩ | ⟨i, h0⟩ <;>
              rcases hg1 with h1 | ⟨n1, h1⟩ | ⟨i1, h1⟩ <;>
                simp [h0, h1, ApiCall.isDeleteTemplate]
          · rw [hr]
            rcases hg0 with h0 | ⟨n, h0⟩ | ⟨i, h0⟩ <;>
              rcases hg1 with h1 | ⟨n1, h1⟩ | ⟨i1, h1⟩ <;>
                simp [h0, h1, ApiCall.isDeleteVersions, ApiCall.deleteVersionsArg]
          · intro r hnor
            rw [hr] at hnor
            exact absurd hnor (by simp)
      · refine ⟨?_, ?_, ?_⟩
        · intro r hnor
          rw [hr] at hnor
          exact absurd hnor (by simp)
        · intro hv
          exact Option.noConfusion hv
        · intro v' hv
          have hvv : v' = v := (Option.some.inj hv).symm
          subst hvv
          refine ⟨?_, ?_, ?_⟩
          · rw [hr]
            rcases hg0 with h0 | ⟨n, h0⟩ | ⟨i, h0⟩ <;>
              rcases hg1 with h1 | ⟨n1, h1⟩ | ⟨i1, h1⟩ <;>
                simp [h0, h1, ApiCall.isDeleteTemplate]
          · rw [hr]
            rcases hg0 with h0 | ⟨n, h0⟩ | ⟨i, h0⟩ <;>
              rcases hg1 with h1 | ⟨n1, h1⟩ | ⟨i1, h1⟩ <;>
                simp [h0, h1, ApiCall.isDeleteVersions, ApiCall.deleteVersionsArg]
          · intro r hnor
            rw [hr] at hnor
            exact absurd hnor (by simp)
    · simp only [seqE] at hr
      refine ⟨?_, ?_, ?_⟩
      · intro r hnor
        rw [hr] at hnor
        exact absurd hnor (by simp)
      · intro hv
        exact Option.noConfusion hv
      · intro v' hv
        have hvv : v' = v := (Option.some.inj hv).symm
        subst hvv
        refine ⟨?_, ?_, ?_⟩
        · rw [hr]
          rcases hg0 with h0 | ⟨n, h0⟩ | ⟨i, h0⟩ <;>
            simp [h0, ApiCall.isDeleteTemplate]
        · rw [hr]
          rcases hg0 with h0 | ⟨n, h0⟩ | ⟨i, h0⟩ <;>
            simp [h0, ApiCall.isDeleteVersions]
        · intro r hnor
          rw [hr] at hnor
          exact absurd hnor (by simp)
    · simp only [seqE] at hr
      refine ⟨?_, ?_, ?_⟩
      · intro r hnor
        rw [hr] at hnor
        exact absurd hnor (by simp)
      · intro hv
        exact Option.noConfusion hv
      · intro v' hv
        have hvv : v' = v := (Option.some.inj hv).symm
        subst hvv
        refine ⟨?_, ?_, ?_⟩
        · rw [hr]
          rcases hg0 with h0 | ⟨n, h0⟩ | ⟨i, h0⟩ <;>
            simp [h0, ApiCall.isDeleteTemplate]
        · rw [hr]
          rcases hg0 with h0 | ⟨n, h0⟩ | ⟨i, h0⟩ <;>
            simp [h0, ApiCall.isDeleteVersions]
        · intro r hnor
          rw [hr] at hnor
          exact absurd hnor (by simp)

theorem version_msg_ne (v : String) :
    ("Failed to describe launch template version number: " ++ v) ≠
      "Launch template data missing." := by
  intro hcontra
  have hlen := congrArg String.length hcontra
  rw [String.length_append] at hlen
  have h1 : ("Failed to describe launch template version number: " : String).length = 51 := rfl
  have h2 : ("Launch template data missing." : String).length = 29 := rfl
  rw [h1, h2] at hlen
  omega

theorem create_lt_trace {σ : Type} (conn : Connection σ) (q : LaunchTemplateReq) (s : σ) :
    (create_lt conn q s).2.1 = [ApiCall.createLaunchTemplate q] := by
  unfold create_lt
  rcases h : conn.step s (ApiCall.createLaunchTemplate q) with ⟨s', o⟩
  rcases o with r | e | e <;> rfl

theorem failMsg_seqE {σ α β : Type} (x : StepRes σ α) (f : α → σ → StepRes σ β) (m : String)
    (h : Out.failMsg? (seqE x f).2.2 = some m) :
    Out.failMsg? x.2.2 = some m ∨ ∃ a s', Out.failMsg? (f a s').2.2 = some m := by
  rcases x with ⟨s0, g0, o⟩
  rcases o with a | ⟨m0, d0⟩ | _
  · rcases hf : f a s0 with ⟨s', g', r⟩
    simp only [seqE, hf] at h
    exact Or.inr ⟨a, s0, by rw [hf]; exact h⟩
  · simp only [seqE] at h
    exact Or.inl h
  · simp only [seqE] at h
    exact Option.noConfusion h

theorem describe_lt_call_failMsg {σ : Type} (conn : Connection σ) (c : ApiCall) (s : σ)
    (m : String) (h : Out.failMsg? (describe_lt_call conn c s).2.2 = some m) :
    m = "Failed to describe the launch template" := by
  unfold describe_lt_call at h
  rcases hs : conn.step s c with ⟨s0, o⟩
  rw [hs] at h
  rcases o with r' | e | e
  · rcases r' with _ | ts | vs
    · exact Option.noConfusion h
    · rcases ts with _ | ⟨t, ts⟩
      · exact Option.noConfusion h
      · exact Option.noConfusion h
    · exact Option.noConfusion h
  · exact Option.noConfusion h
  · exact (Option.some.inj h).symm

theorem describe_lt_failMsg {σ : Type} (conn : Connection σ) (r : LTRef) (s : σ) (m : String)
    (h : Out.failMsg? (describe_lt conn r s).2.2 = some m) :
    m = "Failed to describe the launch template" := by
  rcases r with ⟨rn, ri, rv⟩
  rcases rn with _ | n
  · rcases ri with _ | i
    · exact Option.noConfusion h
    · exact describe_lt_call_failMsg conn _ s m h
  · exact describe_lt_call_failMsg conn _ s m h

theorem describe_lt_version_call_failMsg {σ : Type} (conn : Connection σ) (c : ApiCall)
    (v : String) (s : σ) (m : String)
    (h : Out.failMsg? (describe_lt_version_call conn c v s).2.2 = some m) :
    m = "Failed to describe launch template version number: " ++ v := by
  unfold describe_lt_version_call at h
  rcases hs : conn.step s c with ⟨s0, o⟩
  rw [hs] at h
  rcases o with r' | e | e
  · rcases r' with _ | ts | vs
    · exact Option.noConfusion h
    · exact Option.noConfusion h
    · rcases vs with _ | ⟨x, vs⟩
      · exact Option.noConfusion h
      · exact Option.noConfusion h
  · exact (Option.some.inj h).symm
  · exact (Option.some.inj h).symm

theorem describe_lt_version_failMsg {σ : Type} (conn : Connection σ) (r : LTRef) (v : String)
    (s : σ) (m : String)
    (h : Out.failMsg? (describe_lt_version conn r v s).2.2 = some m) :
    m = "Failed to describe launch template version number: " ++ v ∨
    m = "Missing launch template name or id" := by
  rcases r with ⟨rn, ri, rv⟩
  rcases rn with _ | n
  · rcases ri with _ | i
    · exact Or.inr (Option.some.inj h).symm
    · exact Or.inl (describe_lt_version_call_failMsg conn _ v s m h)
  · exact Or.inl (describe_lt_version_call_failMsg conn _ v s m h)

theorem create_lt_failMsg {σ : Type} (conn : Connection σ) (q : LaunchTemplateReq) (s : σ)
    (m : String) (h : Out.failMsg? (create_lt conn q s).2.2 = some m) :
    m = "Failed to create launch template" := by
  unfold create_lt at h
  rcases hs : conn.step s (ApiCall.createLaunchTemplate q) with ⟨s0, o⟩
  rw [hs] at h
  rcases o with r' | e | e
  · exact Option.noConfusion h
  · exact (Option.some.inj h).symm
  · exact (Option.some.inj h).symm

theorem create_lt_version_failMsg {σ : Type} (conn : Connection σ) (q : LaunchTemplateReq)
    (s : σ) (m : String) (h : Out.failMsg? (create_lt_version conn q s).2.2 = some m) :
    m = "Failed to create launch template version" := by
  unfold create_lt_version at h
  rcases hs : conn.step s (ApiCall.createLaunchTemplateVersion q) with ⟨s0, o⟩
  rw [hs] at h
  rcases o with r' | e | e
  · exact Option.noConfusion h
  · exact (Option.some.inj h).symm
  · exact (Option.some.inj h).symm

theorem converger_branch_failMsg {σ : Type} (conn : Connection σ) (q : LaunchTemplateReq)
    (r : LTRef) (lt0 : Option LTRecord) (s : σ) (m : String)
    (h : Out.failMsg? (converger_branch conn q r lt0 s).2.2 = some m) :
    m = "Failed to create launch template" ∨
    m = "Failed to describe the launch template" ∨
    m = "Failed to create launch template version" ∨
    m = "Missing launch template name or id" ∨
    ∃ v, m = "Failed to describe launch template version number: " ++ v := by
  rcases lt0 with _ | lt
  · have h' : Out.failMsg? (seqE (create_lt conn q s) (fun _ s1 =>
        seqE (describe_lt conn r s1) (fun _ s2 => (s2, [], Out.normal true)))).2.2 = some m := h
    rcases failMsg_seqE _ _ _ h' with h0 | ⟨a, s', h0⟩
    · exact Or.inl (create_lt_failMsg conn q s m h0)
    · rcases failMsg_seqE _ _ _ h0 with h1 | ⟨b, s2, h1⟩
      · exact Or.inr (Or.inl (describe_lt_failMsg conn r s' m h1))
      · exact Option.noConfusion h1
  · by_cases hc : (pyDictTruthy q.LaunchTemplateData &&
        pyDictIsNotNone q.LaunchTemplateData) = true
    · have h' : Out.failMsg? (seqE
          (describe_lt_version conn r (toString lt.LatestVersionNumber) s)
          (fun lt_latest_version s1 =>
            if lt_latest_version.LaunchTemplateData ≠ q.LaunchTemplateData then
              seqE (create_lt_version conn q s1) (fun _ s2 =>
                seqE (describe_lt conn r s2) (fun _ s3 => (s3, [], Out.normal true)))
            else (s1, [], Out.normal false))).2.2 = some m := by
        have hb : converger_branch conn q r (some lt) s = seqE
            (describe_lt_version conn r (toString lt.LatestVersionNumber) s)
            (fun lt_latest_version s1 =>
              if lt_latest_version.LaunchTemplateData ≠ q.LaunchTemplateData then
                seqE (create_lt_version conn q s1) (fun _ s2 =>
                  seqE (describe_lt conn r s2) (fun _ s3 => (s3, [], Out.normal true)))
              else (s1, [], Out.normal false)) := by
          unfold converger_branch
          try dsimp only
          rw [if_pos hc]
        rw [hb] at h
        exact h
      rcases failMsg_seqE _ _ _ h' with h0 | ⟨a, s', h0⟩
      · rcases describe_lt_version_failMsg conn r _ s m h0 with h1 | h1
        · exact Or.inr (Or.inr (Or.inr (Or.inr ⟨_, h1⟩)))
        · exact Or.inr (Or.inr (Or.inr (Or.inl h1)))
      · by_cases hne : a.LaunchTemplateData ≠ q.LaunchTemplateData
        · rw [if_pos hne] at h0
          rcases failMsg_seqE _ _ _ h0 with h1 | ⟨b, s2, h1⟩
          · exact Or.inr (Or.inr (Or.inl (create_lt_version_failMsg conn q s' m h1)))
          · rcases failMsg_seqE _ _ _ h1 with h2 | ⟨e, s3, h2⟩
            · exact Or.inr (Or.inl (describe_lt_failMsg conn r s2 m h2))
            · exact Option.noConfusion h2
        · rw [if_neg hne] at h0
          exact Option.noConfusion h0
    · have hb : converger_branch conn q r (some lt) s = (s, [], Out.normal false) := by
        unfold converger_branch
        try dsimp only
        rw [if_neg hc]
      rw [hb] at h
      exact Option.noConfusion h

theorem converger_final_failMsg {σ : Type} (conn : Connection σ) (r : LTRef) (ch : Bool)
    (s : σ) (m : String)
    (h : Out.failMsg? (converger_final conn r ch s).2.2 = some m) :
    m = "Failed to describe the launch template" ∨
    m = "Missing launch template name or id" ∨
    ∃ v, m = "Failed to describe launch template version number: " ++ v := by
  unfold converger_final at h
  rcases failMsg_seqE _ _ _ h with h0 | ⟨a, s', h0⟩
  · exact Or.inl (describe_lt_failMsg conn r s m h0)
  · rcases a with _ | lt
    · exact Option.noConfusion h0
    · rcases failMsg_seqE _ _ _ h0 with h1 | ⟨b, s2, h1⟩
      · rcases describe_lt_version_failMsg conn r _ s' m h1 with h2 | h2
        · exact Or.inr (Or.inr ⟨_, h2⟩)
        · exact Or.inr (Or.inl h2)
      · exact Option.noConfusion h1

theorem seqE_trace_prefix {σ α β : Type} (x : StepRes σ α) (f : α → σ → StepRes σ β) :
    ∃ g', (seqE x f).2.1 = x.2.1 ++ g' := by
  rcases x with ⟨s0, g0, o⟩
  rcases o with a | ⟨m, d⟩ | _
  · rcases hf : f a s0 with ⟨s', g', r⟩
    exact ⟨g', by simp only [seqE, hf]⟩
  · exact ⟨[], by simp only [seqE, List.append_nil]⟩
  · exact ⟨[], by simp only [seqE, List.append_nil]⟩

theorem converger_branch_none_trace {σ : Type} (conn : Connection σ) (q : LaunchTemplateReq)
    (r : LTRef) (s : σ) :
    ∃ g', (converger_branch conn q r none s).2.1 = ApiCall.createLaunchTemplate q :: g' := by
  have hb : converger_branch conn q r none s = seqE (create_lt conn q s) (fun _ s1 =>
      seqE (describe_lt conn r s1) (fun _ s2 => (s2, [], Out.normal true))) := by
    unfold converger_branch
    simp only [pyDictIsNotNone, if_true]
  rw [hb]
  rcases seqE_trace_prefix (create_lt conn q s) (fun _ s1 =>
      seqE (describe_lt conn r s1) (fun _ s2 => (s2, [], Out.normal true))) with ⟨g', hg⟩
  refine ⟨g', ?_⟩
  rw [hg, create_lt_trace]
  rfl

/-- C10: the launch template data value is always a dict (never None), so
the `Launch template data missing.` failure is unreachable for every
provider behaviour and every input, and a request carrying only a name and
a version description is never rejected as incomplete: when the lookup
finds nothing, the Converger proceeds to the create-template call. -/
theorem converger_data_never_missing {σ : Type} (conn : Connection σ) (p : PresentParams)
    (s : σ) :
    pyDictIsNotNone (buildLaunchTemplate p).LaunchTemplateData = true
  ∧ Out.failMsg? (create_launch_template_or_version conn p s).2.2 ≠
      some "Launch template data missing."
  ∧ (∀ (s1 : σ) (g1 : List ApiCall),
       describe_lt conn (ltRefOf p) s = (s1, g1, Out.normal none) →
       ApiCall.createLaunchTemplate (buildLaunchTemplate p) ∈
         (create_launch_template_or_version conn p s).2.1) := by
  have hrun : create_launch_template_or_version conn p s =
      seqE (describe_lt conn (ltRefOf p) s) (fun lt0 s1 =>
        seqE (converger_branch conn (buildLaunchTemplate p) (ltRefOf p) lt0 s1) (fun ch s2 =>
          converger_final conn (ltRefOf p) ch s2)) := rfl
  refine ⟨rfl, ?_, ?_⟩
  · intro hcontra
    rw [hrun] at hcontra
    rcases failMsg_seqE _ _ _ hcontra with h0 | ⟨a, s1, h0⟩
    · exact absurd (describe_lt_failMsg conn _ s _ h0) (by decide)
    · rcases failMsg_seqE _ _ _ h0 with h1 | ⟨b, s2, h1⟩
      · rcases converger_branch_failMsg conn _ _ a s1 _ h1 with h2 | h2 | h2 | h2 | ⟨v, h2⟩
        · exact absurd h2 (by decide)
        · exact absurd h2 (by decide)
        · exact absurd h2 (by decide)
        · exact absurd h2 (by decide)
        · exact version_msg_ne v h2.symm
      · rcases converger_final_failMsg conn _ b s2 _ h1 with h2 | h2 | ⟨v, h2⟩
        · exact absurd h2 (by decide)
        · exact absurd h2 (by decide)
        · exact version_msg_ne v h2.symm
  · intro s1 g1 hd
    rw [hrun, hd]
    simp only [seqE]
    rcases converger_branch_none_trace conn (buildLaunchTemplate p) (ltRefOf p) s1
      with ⟨g', hg⟩
    rcases hb : converger_branch conn (buildLaunchTemplate p) (ltRefOf p) none s1
      with ⟨sb, gb, ob⟩
    rw [hb] at hg
    simp only at hg
    rcases ob with ch | ⟨mm, dd⟩ | _
    · rcases hf : converger_final conn (ltRefOf p) ch sb with ⟨sf, gf, o3⟩
      simp only [seqE, hb, hf]
      simp [hg]
    · simp only [seqE, hb]
      simp [hg]
    · simp only [seqE, hb]
      simp [hg]

/-- Concrete witness for C10: a request with only a name and a version
description is not rejected and reaches the create call on an empty
provider. -/
theorem converger_data_never_missing_witness :
    pyDictIsNotNone
      (buildLaunchTemplate { name := "only", version_description := some "d" }).LaunchTemplateData = true
  ∧ Out.failMsg? (create_launch_template_or_version cloudConn
      { name := "only", version_description := some "d" } emptyCloud).2.2 ≠
      some "Launch template data missing."
  ∧ ApiCall.createLaunchTemplate
      (buildLaunchTemplate { name := "only", version_description := some "d" }) ∈
      (create_launch_template_or_version cloudConn
        { name := "only", version_description := some "d" } emptyCloud).2.1 :=
  ⟨(converger_data_never_missing cloudConn
      { name := "only", version_description := some "d" } emptyCloud).1,
   (converger_data_never_missing cloudConn
      { name := "only", version_description := some "d" } emptyCloud).2.1,
   (converger_data_never_missing cloudConn
      { name := "only", version_description := some "d" } emptyCloud).2.2
     emptyCloud [ApiCall.describeLaunchTemplatesByName "only"] (by decide)⟩

/-- C1: when the lookup finds no template of the requested name, the
Converger issues exactly one create-template call carrying the assembled
launch template data, reports changed=true, and returns the newly created
template identifier, name, creation time and version metadata (versions 1
and 1, the created data and creation time). -/
theorem converger_creates_when_absent (s : Cloud) (p : PresentParams)
    (h : findTemplate s.templates p.name = none) :
    (create_launch_template_or_version cloudConn p s).2.1.filter ApiCall.isMutating =
      [ApiCall.createLaunchTemplate (buildLaunchTemplate p)]
  ∧ (create_launch_template_or_version cloudConn p s).2.2 =
      Out.normal
        { changed := true,
          results := ResultsPayload.present
            { id := s.mintId, name := p.name, create_time := s.mintTime,
              default_version_number := 1, latest_version_number := 1,
              latest_version :=
                { launch_template_data := (buildLaunchTemplate p).LaunchTemplateData,
                  create_time := s.mintTime } } } := by
  rw [converger_run_absent s p h]
  refine ⟨?_, rfl⟩
  simp [List.filter, ApiCall.isMutating]

/-- Concrete witness for C1: creating `special` on an empty provider. -/
theorem converger_creates_when_absent_witness :
    (create_launch_template_or_version cloudConn
        { name := "special", ami_id := some "ami-XXX", instance_type := some "t1.micro" }
        emptyCloud).2.1.filter ApiCall.isMutating =
      [ApiCall.createLaunchTemplate (buildLaunchTemplate
        { name := "special", ami_id := some "ami-XXX", instance_type := some "t1.micro" })]
  ∧ (create_launch_template_or_version cloudConn
        { name := "special", ami_id := some "ami-XXX", instance_type := some "t1.micro" }
        emptyCloud).2.2 =
      Out.normal
        { changed := true,
          results := ResultsPayload.present
            { id := emptyCloud.mintId, name := "special", create_time := emptyCloud.mintTime,
              default_version_number := 1, latest_version_number := 1,
              latest_version :=
                { launch_template_data := (buildLaunchTemplate
                    { name := "special", ami_id := some "ami-XXX",
                      instance_type := some "t1.micro" }).LaunchTemplateData,
                  create_time := emptyCloud.mintTime } } } :=
  converger_creates_when_absent emptyCloud
    { name := "special", ami_id := some "ami-XXX", instance_type := some "t1.micro" } rfl

/-- C2 counterexample: against a live template whose latest version data
is non-empty, a request whose assembled data dict is empty is unequal to
the live data, yet the Converger issues no mutating call and reports
changed=false: the fetch-and-compare with its create-version consequence
is skipped for empty request data. -/
theorem converger_empty_data_cex :
    (buildLaunchTemplate { name := "tpl" }).LaunchTemplateData ≠ sampleVersion.data
  ∧ Out.changedOf?
      (create_launch_template_or_version cloudConn { name := "tpl" } sampleCloud).2.2 =
      some false
  ∧ countMutating
      (create_launch_template_or_version cloudConn { name := "tpl" } sampleCloud).2.1 = 0 :=
  ⟨by decide, by decide, by decide⟩

/-- C2 amended: when a template of the requested name exists and the
assembled data dict is non-empty, the Converger fetches the latest version
data and compares: unequal data yields exactly one create-version call and
changed=true, equal data yields no mutating call and changed=false.  When
the assembled data dict is empty, the fetch-and-compare is skipped and the
Converger reports changed=false with no mutating call regardless of the
live data.  Two successive invocations with identical parameters starting
from a provider with no template of that name yield changed=true then
changed=false. -/
theorem converger_compare_idempotent (p : PresentParams) :
    (∀ (s : Cloud) (t : CloudLT) (vr : CloudVersion),
       findTemplate s.templates p.name = some t →
       findVersion t (toString t.latestVersionNumber) = some vr →
       (buildLaunchTemplate p).LaunchTemplateData.isEmptyDict = false →
       vr.data ≠ (buildLaunchTemplate p).LaunchTemplateData →
       (create_launch_template_or_version cloudConn p s).2.1.filter ApiCall.isMutating =
         [ApiCall.createLaunchTemplateVersion (buildLaunchTemplate p)] ∧
       Out.changedOf? (create_launch_template_or_version cloudConn p s).2.2 = some true)
  ∧ (∀ (s : Cloud) (t : CloudLT) (vr : CloudVersion),
       findTemplate s.templates p.name = some t →
       findVersion t (toString t.latestVersionNumber) = some vr →
       (buildLaunchTemplate p).LaunchTemplateData.isEmptyDict = false →
       vr.data = (buildLaunchTemplate p).LaunchTemplateData →
       (create_launch_template_or_version cloudConn p s).2.1.filter ApiCall.isMutating = [] ∧
       Out.changedOf? (create_launch_template_or_version cloudConn p s).2.2 = some false)
  ∧ (∀ (s : Cloud) (t : CloudLT) (vr : CloudVersion),
       findTemplate s.templates p.name = some t →
       findVersion t (toString t.latestVersionNumber) = some vr →
       (buildLaunchTemplate p).LaunchTemplateData.isEmptyDict = true →
       (create_launch_template_or_version cloudConn p s).2.1.filter ApiCall.isMutating = [] ∧
       Out.changedOf? (create_launch_template_or_version cloudConn p s).2.2 = some false)
  ∧ (∀ (s : Cloud), findTemplate s.templates p.name = none →
       Out.changedOf? (create_launch_template_or_version cloudConn p s).2.2 = some true ∧
       Out.changedOf? (create_launch_template_or_version cloudConn p
         (create_launch_template_or_version cloudConn p s).1).2.2 = some false) := by
  refine ⟨?_, ?_, ?_, ?_⟩
  · intro s t vr h1 h2 hD hne
    rw [converger_run_present_unequal s p t vr h1 h2 hD hne]
    exact ⟨by simp [List.filter, ApiCall.isMutating], rfl⟩
  · intro s t vr h1 h2 hD heq
    rw [converger_run_present_equal s p t vr h1 h2 hD heq]
    exact ⟨by simp [List.filter, ApiCall.isMutating], rfl⟩
  · intro s t vr h1 h2 hD
    rw [converger_run_present_empty s p t vr h1 h2 hD]
    exact ⟨by simp [List.filter, ApiCall.isMutating], rfl⟩
  · intro s h
    refine ⟨?_, ?_⟩
    · rw [converger_run_absent s p h]
      rfl
    · have hfind : findTemplate (s.createTemplate (buildLaunchTemplate p)).templates p.name =
          some (s.newTemplate (buildLaunchTemplate p)) := findTemplate_cons_self _ _ _ rfl
      have hver : findVersion (s.newTemplate (buildLaunchTemplate p))
          (toString (s.newTemplate (buildLaunchTemplate p)).latestVersionNumber) =
          some { number := 1, data := (buildLaunchTemplate p).LaunchTemplateData,
                 createTime := s.mintTime } := by
        simp [findVersion, Cloud.newTemplate, List.find?_cons]
      rw [converger_run_absent s p h]
      show Out.changedOf? (create_launch_template_or_version cloudConn p
        (s.createTemplate (buildLaunchTemplate p))).2.2 = some false
      cases hD : (buildLaunchTemplate p).LaunchTemplateData.isEmptyDict with
      | false =>
          rw [converger_run_present_equal _ p _ _ hfind hver hD rfl]
          rfl
      | true =>
          rw [converger_run_present_empty _ p _ _ hfind hver hD]
          rfl

/-- Concrete witness for the amended C2: a data change cuts version 2 with
changed=true, an identical request reports changed=false without mutation,
an empty request against a live template reports changed=false without
mutation, and the create-then-repeat sequence reports changed=true then
changed=false. -/
theorem converger_compare_idempotent_witness :
    ((create_launch_template_or_version cloudConn { name := "tpl", ami_id := some "ami-2" }
        sampleCloud).2.1.filter ApiCall.isMutating =
      [ApiCall.createLaunchTemplateVersion
        (buildLaunchTemplate { name := "tpl", ami_id := some "ami-2" })] ∧
     Out.changedOf? (create_launch_template_or_version cloudConn
        { name := "tpl", ami_id := some "ami-2" } sampleCloud).2.2 = some true)
  ∧ ((create_launch_template_or_version cloudConn { name := "tpl", ami_id := some "ami-1" }
        sampleCloud).2.1.filter ApiCall.isMutating = [] ∧
     Out.changedOf? (create_launch_template_or_version cloudConn
        { name := "tpl", ami_id := some "ami-1" } sampleCloud).2.2 = some false)
  ∧ ((create_launch_template_or_version cloudConn { name := "tpl" }
        sampleCloud).2.1.filter ApiCall.isMutating = [] ∧
     Out.changedOf? (create_launch_template_or_version cloudConn
        { name := "tpl" } sampleCloud).2.2 = some false)
  ∧ (Out.changedOf? (create_launch_template_or_version cloudConn
        { name := "tpl", ami_id := some "ami-2" } emptyCloud).2.2 = some true ∧
     Out.changedOf? (create_launch_template_or_version cloudConn
        { name := "tpl", ami_id := some "ami-2" }
        (create_launch_template_or_version cloudConn
          { name := "tpl", ami_id := some "ami-2" } emptyCloud).1).2.2 = some false) :=
  ⟨(converger_compare_idempotent { name := "tpl", ami_id := some "ami-2" }).1
      sampleCloud sampleTemplate sampleVersion (by decide) (by decide) (by decide) (by decide),
   (converger_compare_idempotent { name := "tpl", ami_id := some "ami-1" }).2.1
      sampleCloud sampleTemplate sampleVersion (by decide) (by decide) (by decide) (by decide),
   (converger_compare_idempotent { name := "tpl" }).2.2.1
      sampleCloud sampleTemplate sampleVersion (by decide) (by decide) (by decide),
   (converger_compare_idempotent { name := "tpl", ami_id := some "ami-2" }).2.2.2
      emptyCloud (by decide)⟩

/-- Concrete witness for C4: against the deterministic provider, the
version path issues no whole-template delete and exactly one
delete-versions call, and the no-version path issues exactly one
whole-template delete call. -/
theorem remover_dispatch_witness :
    ((delete_launch_template_or_version cloudConn (some "tpl") none (some "1")
        sampleCloud).2.1.all (fun c => !c.isDeleteTemplate)) = true
  ∧ ((delete_launch_template_or_version cloudConn (some "tpl") none (some "1")
        sampleCloud).2.1.filter ApiCall.isDeleteVersions).length = 1
  ∧ ({ changed := true, results := ResultsPayload.empty } : ModuleResults).changed = true
  ∧ ((delete_launch_template_or_version cloudConn (some "tpl") none none
        sampleCloud).2.1.filter ApiCall.isDeleteTemplate).length = 1 :=
  ⟨((remover_dispatch cloudConn (some "tpl") none (some "1") sampleCloud).2.2 "1" rfl).1,
   ((remover_dispatch cloudConn (some "tpl") none (some "1") sampleCloud).2.2 "1" rfl).2.2
     { changed := true, results := ResultsPayload.empty } (by decide),
   ((remover_dispatch cloudConn (some "tpl") none (some "1") sampleCloud).1
     { changed := true, results := ResultsPayload.empty } (by decide)).1 ▸ rfl,
   ((remover_dispatch cloudConn (some "tpl") none none sampleCloud).2.1 rfl).2
     { changed := true, results := ResultsPayload.empty } (by decide)⟩

theorem describe_lt_version_call_readonly {σ : Type} (conn : Connection σ) (c : ApiCall)
    (v : String) (s : σ)
    (hRO : ∀ (st : σ) (c : ApiCall), c.isMutating = false → (conn.step st c).1 = st)
    (hc : c.isMutating = false) :
    (describe_lt_version_call conn c v s).1 = s := by
  unfold describe_lt_version_call
  rcases hs : conn.step s c with ⟨s0, o⟩
  have hs0 : s0 = s := by
    have h := hRO s c hc
    rw [hs] at h
    exact h
  subst hs0
  rcases o with r' | e | e
  · rcases r' with _ | ts | vs
    · rfl
    · rfl
    · rcases vs with _ | ⟨x, vs⟩ <;> rfl
  · rfl
  · rfl

theorem describe_lt_version_readonly {σ : Type} (conn : Connection σ) (r : LTRef) (v : String)
    (s : σ)
    (hRO : ∀ (st : σ) (c : ApiCall), c.isMutating = false → (conn.step st c).1 = st) :
    (describe_lt_version conn r v s).1 = s := by
  rcases r with ⟨rn, ri, rv⟩
  rcases rn with _ | n
  · rcases ri with _ | i
    · rfl
    · exact describe_lt_version_call_readonly conn _ v s hRO rfl
  · exact describe_lt_version_call_readonly conn _ v s hRO rfl

/-- C9: in the delete-version path, whenever the preliminary describe call
returns normally and describe calls do not alter provider state, the
Remover final state, outcome and mutating calls coincide with those of the
variant that omits the describe call: the describe result is never used. -/
theorem remover_describe_dead {σ : Type} (conn : Connection σ) (name id : Option String)
    (v : String) (s : σ)
    (hRO : ∀ (st : σ) (c : ApiCall), c.isMutating = false → (conn.step st c).1 = st)
    (hOK : (describe_lt_version conn ⟨name, id, some v⟩ v s).2.2.isNormal = true) :
    (delete_launch_template_or_version conn name id (some v) s).1 =
      (delete_remover_no_describe conn name id (some v) s).1
  ∧ (delete_launch_template_or_version conn name id (some v) s).2.2 =
      (delete_remover_no_describe conn name id (some v) s).2.2
  ∧ (delete_launch_template_or_version conn name id (some v) s).2.1.filter ApiCall.isMutating =
      (delete_remover_no_describe conn name id (some v) s).2.1.filter ApiCall.isMutating := by
  have hrun : delete_launch_template_or_version conn name id (some v) s =
      seqE (describe_lt_version conn ⟨name, id, some v⟩ v s) (fun _ s1 =>
        seqE (delete_lt_version conn ⟨name, id, some v⟩ s1) (fun _ s2 =>
          (s2, [], Out.normal ⟨true, ResultsPayload.empty⟩))) := rfl
  have hvar : delete_remover_no_describe conn name id (some v) s =
      seqE (delete_lt_version conn ⟨name, id, some v⟩ s) (fun _ s1 =>
        (s1, [], Out.normal ⟨true, ResultsPayload.empty⟩)) := rfl
  rcases hd0 : describe_lt_version conn ⟨name, id, some v⟩ v s with ⟨s1, g0, o0⟩
  have hst : s1 = s := by
    have h := describe_lt_version_readonly conn ⟨name, id, some v⟩ v s hRO
    rw [hd0] at h
    exact h
  rw [hst] at hd0
  rcases o0 with ltv | ⟨m, d⟩ | _
  · have hg0 := describe_lt_version_trace_shape conn ⟨name, id, some v⟩ v s
    rw [hd0] at hg0
    simp only at hg0
    rcases hd1 : delete_lt_version conn ⟨name, id, some v⟩ s with ⟨s2, g1, o1⟩
    rw [hrun, hvar]
    rcases o1 with resp | ⟨m, d⟩ | _ <;>
      simp only [seqE, hd0, hd1] <;>
      refine ⟨by trivial, by trivial, ?_⟩ <;>
      rcases hg0 with h0 | ⟨n, h0⟩ | ⟨i, h0⟩ <;>
        simp [h0, List.filter_append, ApiCall.isMutating]
  · rw [hd0] at hOK
    simp [Out.isNormal] at hOK
  · rw [hd0] at hOK
    simp [Out.isNormal] at hOK

theorem cloud_step_readonly : ∀ (st : Cloud) (c : ApiCall), c.isMutating = false →
    (cloudConn.step st c).1 = st := by
  intro st c h
  cases c with
  | createLaunchTemplate q => simp [ApiCall.isMutating] at h
  | createLaunchTemplateVersion q => simp [ApiCall.isMutating] at h
  | deleteLaunchTemplateByName n => simp [ApiCall.isMutating] at h
  | deleteLaunchTemplateById i => simp [ApiCall.isMutating] at h
  | deleteLaunchTemplateVersionsByName n v => simp [ApiCall.isMutating] at h
  | deleteLaunchTemplateVersionsById i v => simp [ApiCall.isMutating] at h
  | describeLaunchTemplatesByName n =>
      show (Cloud.step st (ApiCall.describeLaunchTemplatesByName n)).1 = st
      unfold Cloud.step
      rcases hf : findTemplate st.templates n with _ | t <;> simp [hf]
  | describeLaunchTemplatesById i =>
      show (Cloud.step st (ApiCall.describeLaunchTemplatesById i)).1 = st
      unfold Cloud.step
      rcases hf : findTemplateById st.templates i with _ | t <;> simp [hf]
  | describeLaunchTemplateVersionsByName n v =>
      show (Cloud.step st (ApiCall.describeLaunchTemplateVersionsByName n v)).1 = st
      unfold Cloud.step
      rcases hf : findTemplate st.templates n with _ | t
      · simp [hf]
      · rcases hv : findVersion t v with _ | vr <;> simp [hf, hv]
  | describeLaunchTemplateVersionsById i v =>
      show (Cloud.step st (ApiCall.describeLaunchTemplateVersionsById i v)).1 = st
      unfold Cloud.step
      rcases hf : findTemplateById st.templates i with _ | t
      · simp [hf]
      · rcases hv : findVersion t v with _ | vr <;> simp [hf, hv]

/-- Concrete witness for C9: on the deterministic provider with an
existing template and version, the Remover and the describe-free variant
agree on outcome and mutating calls. -/
theorem remover_describe_dead_witness :
    (delete_launch_template_or_version cloudConn (some "tpl") none (some "1") sampleCloud).2.2 =
      (delete_remover_no_describe cloudConn (some "tpl") none (some "1") sampleCloud).2.2
  ∧ (delete_launch_template_or_version cloudConn (some "tpl") none (some "1")
        sampleCloud).2.1.filter ApiCall.isMutating =
      (delete_remover_no_describe cloudConn (some "tpl") none (some "1")
        sampleCloud).2.1.filter ApiCall.isMutating :=
  ⟨(remover_describe_dead cloudConn (some "tpl") none "1" sampleCloud
      cloud_step_readonly (by decide)).2.1,
   (remover_describe_dead cloudConn (some "tpl") none "1" sampleCloud
      cloud_step_readonly (by decide)).2.2⟩

/-- C5: in `delete_lt`, `delete_lt_version` and `describe_lt_version`,
when both a name and an id are supplied the behaviour is identical to
supplying the name alone, and every call issued addresses the resource by
name, never by id. -/
theorem delete_helpers_name_precedence {σ : Type} (conn : Connection σ) (n i : String)
    (ver : Option String) (vnum : String) (s : σ) :
    delete_lt conn { LaunchTemplateName := some n, LaunchTemplateId := some i, Version := ver } s =
      delete_lt conn { LaunchTemplateName := some n, Version := ver } s
  ∧ ((delete_lt conn { LaunchTemplateName := some n, LaunchTemplateId := some i, Version := ver } s).2.1.all
      (fun c => !c.addressesById)) = true
  ∧ delete_lt_version conn
        { LaunchTemplateName := some n, LaunchTemplateId := some i, Version := ver } s =
      delete_lt_version conn { LaunchTemplateName := some n, Version := ver } s
  ∧ ((delete_lt_version conn
        { LaunchTemplateName := some n, LaunchTemplateId := some i, Version := ver } s).2.1.all
      (fun c => !c.addressesById)) = true
  ∧ describe_lt_version conn
        { LaunchTemplateName := some n, LaunchTemplateId := some i, Version := ver } vnum s =
      describe_lt_version conn { LaunchTemplateName := some n, Version := ver } vnum s
  ∧ ((describe_lt_version conn
        { LaunchTemplateName := some n, LaunchTemplateId := some i, Version := ver } vnum s).2.1.all
      (fun c => !c.addressesById)) = true := by
  refine ⟨rfl, ?_, rfl, ?_, rfl, ?_⟩
  · unfold delete_lt
    dsimp only
    rw [show (delete_lt_call conn (ApiCall.deleteLaunchTemplateByName n) s).2.1 =
        [ApiCall.deleteLaunchTemplateByName n] from delete_lt_call_trace conn _ s]
    rfl
  · unfold delete_lt_version
    dsimp only
    rw [show (delete_lt_version_call conn
        (ApiCall.deleteLaunchTemplateVersionsByName n ver) s).2.1 =
        [ApiCall.deleteLaunchTemplateVersionsByName n ver] from delete_lt_version_call_trace conn _ s]
    rfl
  · unfold describe_lt_version
    dsimp only
    rw [show (describe_lt_version_call conn
        (ApiCall.describeLaunchTemplateVersionsByName n vnum) vnum s).2.1 =
        [ApiCall.describeLaunchTemplateVersionsByName n vnum] from
        describe_lt_version_call_trace conn _ vnum s]
    rfl

/-- C6: a deletion request with neither name nor id is the terminal usage
failure `Missing launch template name or id`, raised in every helper and
in both Remover paths before any API call is issued (the call log is
empty). -/
theorem remover_missing_name_and_id {σ : Type} (conn : Connection σ) (ver : Option String)
    (v vnum : String) (s : σ) :
    delete_lt conn { Version := ver } s =
      (s, [], Out.fail "Missing launch template name or id" none)
  ∧ delete_lt_version conn { Version := ver } s =
      (s, [], Out.fail "Missing launch template name or id" none)
  ∧ describe_lt_version conn { Version := ver } vnum s =
      (s, [], Out.fail "Missing launch template name or id" none)
  ∧ delete_launch_template_or_version conn none none none s =
      (s, [], Out.fail "Missing launch template name or id" none)
  ∧ delete_launch_template_or_version conn none none (some v) s =
      (s, [], Out.fail "Missing launch template name or id" none) :=
  ⟨rfl, rfl, rfl, rfl, rfl⟩

/-- C3 counterexample: on a connection whose describe call is rejected by
the provider (`ClientError`), `describe_lt` absorbs the rejection and
returns normally with `None` (the no-match path) instead of raising a
terminal failure, and the Converger then proceeds to issue a create call. -/
theorem describe_rejection_absorbed_cex :
    describe_lt alwaysRejectConn { LaunchTemplateName := some "tpl" } () =
      ((), [ApiCall.describeLaunchTemplatesByName "tpl"], Out.normal none)
  ∧ ((create_launch_template_or_version alwaysRejectConn { name := "tpl" } ()).2.1.contains
      (ApiCall.createLaunchTemplate (buildLaunchTemplate { name := "tpl" })) = true) := by
  exact ⟨rfl, by decide⟩

/-- C3 amended: transport-level errors (`BotoCoreError`) during the
describe/lookup step, and both transport-level and provider-rejection
errors during the create call, are surfaced as terminal failures carrying
the structured provider payload translated to snake_case keys; a provider
rejection (`ClientError`) during the describe/lookup step is instead
absorbed and treated as "no matching template". -/
theorem error_surfacing_amended {σ : Type} (conn : Connection σ) (s s' : σ) (n : String)
    (e : ErrResponse) (q : LaunchTemplateReq) :
    (conn.step s (ApiCall.describeLaunchTemplatesByName n) = (s', ApiOutcome.botoErr e) →
       describe_lt conn { LaunchTemplateName := some n } s =
         (s', [ApiCall.describeLaunchTemplatesByName n],
          Out.fail "Failed to describe the launch template" (some (camel_dict_to_snake_dict e))))
  ∧ (conn.step s (ApiCall.describeLaunchTemplatesByName n) = (s', ApiOutcome.clientErr e) →
       describe_lt conn { LaunchTemplateName := some n } s =
         (s', [ApiCall.describeLaunchTemplatesByName n], Out.normal none))
  ∧ (conn.step s (ApiCall.createLaunchTemplate q) = (s', ApiOutcome.clientErr e) →
       create_lt conn q s =
         (s', [ApiCall.createLaunchTemplate q],
          Out.fail "Failed to create launch template" (some (camel_dict_to_snake_dict e))))
  ∧ (conn.step s (ApiCall.createLaunchTemplate q) = (s', ApiOutcome.botoErr e) →
       create_lt conn q s =
         (s', [ApiCall.createLaunchTemplate q],
          Out.fail "Failed to create launch template" (some (camel_dict_to_snake_dict e)))) := by
  refine ⟨?_, ?_, ?_, ?_⟩ <;> intro h <;>
    simp [describe_lt, describe_lt_call, create_lt, h]

/-- Concrete witness for the amended C3 statement: a transport error on
the describe is a terminal failure with detail, a provider rejection on
the describe is absorbed, and a provider rejection on the create is a
terminal failure with detail. -/
theorem error_surfacing_amended_witness :
    describe_lt alwaysBotoConn { LaunchTemplateName := some "t" } () =
      ((), [ApiCall.describeLaunchTemplatesByName "t"],
       Out.fail "Failed to describe the launch template"
         (some (camel_dict_to_snake_dict [("Code", "Timeout"), ("Message", "timed out")])))
  ∧ describe_lt alwaysRejectConn { LaunchTemplateName := some "t" } () =
      ((), [ApiCall.describeLaunchTemplatesByName "t"], Out.normal none)
  ∧ create_lt alwaysRejectConn { LaunchTemplateName := "t" } () =
      ((), [ApiCall.createLaunchTemplate { LaunchTemplateName := "t" }],
       Out.fail "Failed to create launch template"
         (some (camel_dict_to_snake_dict [("Code", "AccessDenied"), ("Message", "rejected")]))) :=
  ⟨(error_surfacing_amended alwaysBotoConn () () "t"
      [("Code", "Timeout"), ("Message", "timed out")] { LaunchTemplateName := "t" }).1 rfl,
   (error_surfacing_amended alwaysRejectConn () () "t"
      [("Code", "AccessDenied"), ("Message", "rejected")] { LaunchTemplateName := "t" }).2.1 rfl,
   (error_surfacing_amended alwaysRejectConn () () "t"
      [("Code", "AccessDenied"), ("Message", "rejected")] { LaunchTemplateName := "t" }).2.2.1 rfl⟩

end EC2LT
